import Mathlib

/-!
Verification of the bytecode virtual machine in `src/src/virtual_machine.rs`.

The embedding translates the VM's data model and the instruction handlers of
`impl VirtualMachineMethods for RcVirtualMachine` into executable Lean
definitions.  The interpreter loop `run` is embedded as a fuel-indexed
function `runLoop`; running out of fuel is reported as a distinct
`Outcome.timeout`, so genuine non-termination of the source loop shows up as
`timeout` for every fuel value.  A Rust panic (integer division by zero,
out-of-bounds `Vec` indexing) is a distinct `Res.crash` / `Outcome.crash`
outcome, separate from the `Result::Err(String)` error path (`Res.err`).

Code of the repository that the handlers call but that is not under `src/`
(`memory_manager.rs`, `thread.rs`, `object.rs`, `call_frame.rs`,
`compiled_code.rs`) is modelled from the specification; each such definition
carries a doc comment starting with `Modelled from the spec:`.

Machine integers: the VM's values are Rust `i64`; the embedding uses
unbounded `Int`.  The only places where `i64` boundedness is observable in
the claims are the division/modulo panics, which the embedding reproduces
explicitly (divide by zero, and `i64::MIN / -1` overflow).  Wrap-around of
`+`, `-`, `*` (release-mode Rust semantics) is not modelled; no claim
depends on it.
-/

namespace InkoVM

/-- Object identity: index into the memory manager's heap list. -/
abbrev ObjectId := Nat

/-- Rust `f64` values are only ever created (from a literal pool or by
`IntegerToFloat`) and stored, never computed with, so they are embedded
symbolically by their origin. -/
inductive FloatRepr where
  | lit (idx : Nat)
  | ofInt (v : Int)
deriving DecidableEq, Repr

/-- The opcodes of `instruction.rs`, exactly the variants dispatched by
`run` in `virtual_machine.rs`. -/
inductive InstructionType where
  | SetInteger | SetFloat | SetString | SetObject | SetArray | SetName
  | SetIntegerPrototype | SetFloatPrototype | SetStringPrototype
  | SetArrayPrototype | SetThreadPrototype | SetTruePrototype
  | SetFalsePrototype
  | SetTrue | SetFalse
  | SetLocal | GetLocal
  | SetConst | GetConst | SetAttr | GetAttr
  | Send | Return | GotoIfFalse | GotoIfTrue | Goto
  | DefMethod | RunCode | GetToplevel
  | IntegerAdd | IntegerDiv | IntegerMul | IntegerSub | IntegerMod
  | IntegerToFloat | IntegerToString
  | IntegerBitwiseAnd | IntegerBitwiseOr | IntegerBitwiseXor
  | IntegerShiftLeft | IntegerShiftRight
  | IntegerSmaller | IntegerGreater | IntegerEqual
  | StartThread
deriving DecidableEq, Repr

/-- One bytecode instruction: opcode, argument list, source location. -/
structure Instruction where
  itype : InstructionType
  arguments : List Nat
  line : Nat := 1
  column : Nat := 1
deriving DecidableEq, Repr

/-- Embeds `CompiledCode`: immutable artifact with instruction stream, literal
pools, nested code objects, required-argument count and privacy flag.  It is
an inductive (not a structure) because `code_objects` nests
`CompiledCode`. -/
inductive CompiledCode where
  | mk
    (name : String)
    (file : String)
    (line : Nat)
    (instructions : List Instruction)
    (integer_literals : List Int)
    (float_literals : List FloatRepr)
    (string_literals : List String)
    (code_objects : List CompiledCode)
    (required_arguments : Nat)
    (is_private : Bool)

namespace CompiledCode

def name : CompiledCode → String
  | .mk n _ _ _ _ _ _ _ _ _ => n

def file : CompiledCode → String
  | .mk _ f _ _ _ _ _ _ _ _ => f

def line : CompiledCode → Nat
  | .mk _ _ l _ _ _ _ _ _ _ => l

def instructions : CompiledCode → List Instruction
  | .mk _ _ _ i _ _ _ _ _ _ => i

def integer_literals : CompiledCode → List Int
  | .mk _ _ _ _ il _ _ _ _ _ => il

def float_literals : CompiledCode → List FloatRepr
  | .mk _ _ _ _ _ fl _ _ _ _ => fl

def string_literals : CompiledCode → List String
  | .mk _ _ _ _ _ _ sl _ _ _ => sl

def code_objects : CompiledCode → List CompiledCode
  | .mk _ _ _ _ _ _ _ co _ _ => co

def required_arguments : CompiledCode → Nat
  | .mk _ _ _ _ _ _ _ _ ra _ => ra

def is_private : CompiledCode → Bool
  | .mk _ _ _ _ _ _ _ _ _ p => p

end CompiledCode

/-- The tagged payload of an Object (`object_value.rs`, shape per spec §3).
`thread` wraps an opaque handle identifier. -/
inductive ObjValue where
  | none
  | integer (v : Int)
  | float (f : FloatRepr)
  | string (s : String)
  | array (ids : List ObjectId)
  | thread (tid : Nat)
deriving DecidableEq, Repr

namespace ObjValue

def is_integer : ObjValue → Bool
  | .integer _ => true
  | _ => false

/-- Rust `as_integer` unwraps; the default `0` is never reached because
every caller checks `is_integer` first. -/
def as_integer : ObjValue → Int
  | .integer v => v
  | _ => 0

end ObjValue

/-- Modelled from the spec: `object.rs` is not under `src/`.  Per §3 an
Object has a prototype link, attribute/constant/method namespaces, an
optional name, a tagged payload and a pin flag.  `truthy` embeds the
truthiness of §4.4: only the False singleton is untruthy (absence of a
value is handled at the use sites). -/
structure Obj where
  prototype : Option ObjectId := none
  attributes : List (String × ObjectId) := []
  constants : List (String × ObjectId) := []
  methods : List (String × CompiledCode) := []
  name : Option String := none
  value : ObjValue := .none
  pinned : Bool := false
  truthy : Bool := true

/-- Modelled from the spec: `call_frame.rs` is not under `src/`.  Per §3 a
CallFrame records the source location of the executing code; per §2/§3 the
local-variable slots of an invocation live with its frame. -/
structure Frame where
  file : String
  name : String
  line : Nat
  locals : List ObjectId := []

/-- Modelled from the spec: `thread.rs` is not under `src/`.  Per §4.2 a
Thread owns a register file (slot → Object), a stack of CallFrames (head =
top) and a stop flag. -/
structure ThreadState where
  frames : List Frame
  registers : List (Nat × ObjectId) := []
  stop : Bool := false

/-- Modelled from the spec: `memory_manager.rs` is not under `src/`.  Per
§4.1 the manager owns the heap, one write-once slot per well-known
prototype, the True/False singletons and the top-level object.  Heap
membership embeds reachability from the manager; `allocate_prepared` is
then the identity. -/
structure MMState where
  heap : List Obj
  integer_prototype : Option ObjectId := none
  float_prototype : Option ObjectId := none
  string_prototype : Option ObjectId := none
  array_prototype : Option ObjectId := none
  thread_prototype : Option ObjectId := none
  true_prototype : Option ObjectId := none
  false_prototype : Option ObjectId := none
  true_object : Option ObjectId := none
  false_object : Option ObjectId := none
  top_level : ObjectId := 0

/-- The state a `VirtualMachine` instance threads through one interpreter
run: the memory manager, the executing Thread and the ThreadList (as the
ids of the registered thread objects). -/
structure VMState where
  mem : MMState
  thread : ThreadState
  threads : List ObjectId := []

/-! ## State operations -/

namespace MMState

/-- Embeds `allocate(value, prototype)`: fresh object with payload and prototype. -/
def allocate (m : MMState) (value : ObjValue) (proto : ObjectId) :
    MMState × ObjectId :=
  ({ m with heap := m.heap ++ [{ value := value, prototype := some proto }] },
   m.heap.length)

/-- Embeds `new_object(value)`: fresh prototypeless object. -/
def new_object (m : MMState) (value : ObjValue) : MMState × ObjectId :=
  ({ m with heap := m.heap ++ [{ value := value }] }, m.heap.length)

end MMState

namespace ThreadState

def get_register (t : ThreadState) (slot : Nat) : Option ObjectId :=
  (t.registers.find? (fun p => p.1 == slot)).map (·.2)

def set_register (t : ThreadState) (slot : Nat) (id : ObjectId) :
    ThreadState :=
  { t with registers := (slot, id) :: t.registers }

def get_local (t : ThreadState) (i : Nat) : Option ObjectId :=
  t.frames.head?.bind (fun f => f.locals.get? i)

def set_local (t : ThreadState) (i : Nat) (id : ObjectId) : ThreadState :=
  { t with
    frames := t.frames.modifyHead (fun f => { f with locals := f.locals.set i id }) }

def add_local (t : ThreadState) (id : ObjectId) : ThreadState :=
  { t with
    frames := t.frames.modifyHead (fun f => { f with locals := f.locals ++ [id] }) }

def push_call_frame (t : ThreadState) (f : Frame) : ThreadState :=
  { t with frames := f :: t.frames }

def pop_call_frame (t : ThreadState) : ThreadState :=
  { t with frames := t.frames.tail }

end ThreadState

namespace VMState

/-- Heap dereference.  In the source an `RcObject` deref cannot fail; a
register or prototype slot only ever holds an allocated object, so for
reachable states the default is never consulted. -/
def objAt (st : VMState) (id : ObjectId) : Obj :=
  (st.mem.heap.get? id).getD {}

/-- Apply a mutation to the object behind `id` (a `write_lock!` body). -/
def updateObj (st : VMState) (id : ObjectId) (f : Obj → Obj) : VMState :=
  { st with mem := { st.mem with
      heap := st.mem.heap.set id (f (st.objAt id)) } }

def setReg (st : VMState) (slot : Nat) (id : ObjectId) : VMState :=
  { st with thread := st.thread.set_register slot id }

/-- The `ObjValue` currently visible in a register, for stating theorems. -/
def regValue? (st : VMState) (slot : Nat) : Option ObjValue :=
  (st.thread.get_register slot).map (fun id => (st.objAt id).value)

end VMState

/-! ## The instruction-level result type

`Res α` embeds `Result<α, String>` plus the Rust-panic outcome `crash`.
Handler errors abort the instruction before any state write in every
handler except `ins_set_object`, whose orphan allocation on its error path
is unobservable (the thread dies with the error), so handlers return a
plain `Res VMState`. -/

inductive Res (α : Type) where
  | ok (val : α)
  | err (msg : String)
  | crash (msg : String)
deriving Repr

namespace Res

def bind : Res α → (α → Res β) → Res β
  | .ok v, f => f v
  | .err m, _ => .err m
  | .crash m, _ => .crash m

/-- Embeds `Option::ok_or`: the value, or the given error message. -/
def ofOption : Option α → String → Res α
  | some v, _ => .ok v
  | none, msg => .err msg

/-- The error message, when the result is an error. -/
def errMsg? : Res α → Option String
  | .err m => some m
  | _ => none

/-- The resulting state of a state-valued result, defaulting to the input
state on error (the state the loop keeps). -/
def stateD : Res VMState → VMState → VMState
  | .ok st', _ => st'
  | _, st => st

end Res

instance : Monad Res where
  pure := Res.ok
  bind := Res.bind

/-- Embeds `instruction.arguments.get(i).ok_or(msg)`. -/
def argGet (ins : Instruction) (i : Nat) (msg : String) : Res Nat :=
  Res.ofOption (ins.arguments.get? i) msg

/-! ## Prototype-chain lookups

Modelled from the spec: `object.rs` is not under `src/`.  Per §4.3 and the
glossary, method and attribute/constant lookups fall back along the
prototype chain, the first hit winning.  The chain is finite (§3 invariant:
no prototype cycles), so a fuel of `heap.length + 1` suffices. -/

def lookupMethodAux (st : VMState) : Nat → ObjectId → String → Option CompiledCode
  | 0, _, _ => none
  | fuel + 1, id, nm =>
    let o := st.objAt id
    match o.methods.find? (fun p => p.1 == nm) with
    | some p => some p.2
    | none =>
      match o.prototype with
      | some pid => lookupMethodAux st fuel pid nm
      | none => none

/-- Modelled from the spec: `Object::lookup_method` walks
`{receiver, receiver.prototype, …}`; methods defined directly on the
receiver shadow inherited ones (§4.3). -/
def lookup_method (st : VMState) (id : ObjectId) (nm : String) :
    Option CompiledCode :=
  lookupMethodAux st (st.mem.heap.length + 1) id nm

def lookupAttrAux (st : VMState) : Nat → ObjectId → String → Option ObjectId
  | 0, _, _ => none
  | fuel + 1, id, nm =>
    let o := st.objAt id
    match o.attributes.find? (fun p => p.1 == nm) with
    | some p => some p.2
    | none =>
      match o.prototype with
      | some pid => lookupAttrAux st fuel pid nm
      | none => none

/-- Modelled from the spec: `Object::lookup_attribute`, inherited by
prototype fallback (glossary). -/
def lookup_attribute (st : VMState) (id : ObjectId) (nm : String) :
    Option ObjectId :=
  lookupAttrAux st (st.mem.heap.length + 1) id nm

def lookupConstAux (st : VMState) : Nat → ObjectId → String → Option ObjectId
  | 0, _, _ => none
  | fuel + 1, id, nm =>
    let o := st.objAt id
    match o.constants.find? (fun p => p.1 == nm) with
    | some p => some p.2
    | none =>
      match o.prototype with
      | some pid => lookupConstAux st fuel pid nm
      | none => none

/-- Modelled from the spec: `Object::lookup_constant`, a distinct namespace
from attributes and methods (§3). -/
def lookup_constant (st : VMState) (id : ObjectId) (nm : String) :
    Option ObjectId :=
  lookupConstAux st (st.mem.heap.length + 1) id nm

/-- Modelled from the spec: `Object::undefined_method_error` message for an
unknown method (§4.3 step 1, "undefined method"). -/
def undefined_method_error (nm : String) : String :=
  "undefined method \"" ++ nm ++ "\""

/-- Modelled from the spec: `Object::private_method_error` message for a
visibility violation (§4.3 step 2, "private method"). -/
def private_method_error (nm : String) : String :=
  "private method \"" ++ nm ++ "\""

/-! ## Memory-manager prototype setters

Modelled from the spec: `memory_manager.rs` is not under `src/`.  The
setters store the object in the write-once slot (the "already set" check is
performed by the instruction handlers in `virtual_machine.rs`).  Per §3 the
True and False singletons are allocated once the respective prototypes
exist; the False singleton is the one untruthy object (§4.4). -/

def MMState.set_integer_prototype (m : MMState) (id : ObjectId) : MMState :=
  { m with integer_prototype := some id }

def MMState.set_float_prototype (m : MMState) (id : ObjectId) : MMState :=
  { m with float_prototype := some id }

def MMState.set_string_prototype (m : MMState) (id : ObjectId) : MMState :=
  { m with string_prototype := some id }

def MMState.set_array_prototype (m : MMState) (id : ObjectId) : MMState :=
  { m with array_prototype := some id }

def MMState.set_thread_prototype (m : MMState) (id : ObjectId) : MMState :=
  { m with thread_prototype := some id }

def MMState.set_true_prototype (m : MMState) (id : ObjectId) : MMState :=
  { m with
    true_prototype := some id
    heap := m.heap ++ [{ prototype := some id, truthy := true }]
    true_object := some m.heap.length }

def MMState.set_false_prototype (m : MMState) (id : ObjectId) : MMState :=
  { m with
    false_prototype := some id
    heap := m.heap ++ [{ prototype := some id, truthy := false }]
    false_object := some m.heap.length }

/-- Modelled from the spec: `ThreadList::set_prototype` back-fills the
prototype on all registered thread objects (§4.4, SetThreadPrototype). -/
def backfillThreadPrototypes (st : VMState) (proto : ObjectId) : VMState :=
  st.threads.foldl
    (fun acc tid => acc.updateObj tid (fun o => { o with prototype := some proto }))
    st

/-- Modelled from the spec: `MemoryManager::allocate_thread` wraps a Thread
handle in a pinned Object whose prototype is the Thread prototype when
installed (§4.1).  The spawned code itself runs on another OS thread and is
outside this single-thread embedding; only the allocation and registration
effects visible to the spawning thread are modelled. -/
def runThreadAlloc (st : VMState) : VMState × ObjectId :=
  let tid := st.mem.heap.length
  let obj : Obj :=
    { value := .thread tid
      prototype := st.mem.thread_prototype
      pinned := true }
  let mem := { st.mem with heap := st.mem.heap ++ [obj] }
  ({ st with mem := mem, threads := st.threads ++ [tid] }, tid)

/-! ## Decimal printing (Rust `i64::to_string`)

`IntegerToString` calls Rust's `to_string`, which renders the value in
decimal with no leading zeros and a leading `-` for negatives.  The digits
are produced least-significant first with a structural fuel (the number
itself bounds the digit count), keeping the definition kernel-reducible. -/

/-- Base-10 digits, least-significant first; `[]` for `0`.  The first
argument is fuel; `natDigitsRev` supplies `n` itself, which suffices since
`n / 10 < n` for `n > 0`. -/
def natDigitsRevAux : Nat → Nat → List Nat
  | _, 0 => []
  | 0, _ + 1 => []
  | fuel + 1, n + 1 => (n + 1) % 10 :: natDigitsRevAux fuel ((n + 1) / 10)

def natDigitsRev (n : Nat) : List Nat :=
  natDigitsRevAux n n

/-- The decimal character list of a natural number, most-significant
first. -/
def natDecChars (n : Nat) : List Char :=
  if n = 0 then ['0'] else ((natDigitsRev n).reverse.map Nat.digitChar)

/-- Rust `i64::to_string`: decimal rendering, `-` prefix for negatives. -/
def intToDecString (v : Int) : String :=
  if v < 0 then String.mk ('-' :: natDecChars v.natAbs)
  else String.mk (natDecChars v.natAbs)

/-- Rust `i64::MIN`, the one dividend whose division by `-1` overflows. -/
def i64Min : Int := -9223372036854775808

/-! ## Instruction handlers

Each `ins_*` definition embeds the handler of the same name from
`virtual_machine.rs`: the same decode order, the same error messages, the
same state writes. -/

/-- Allocate an object and store it in a register — the
`allocate(...)`-then-`set_register(...)` tail shared by the literal,
arithmetic and conversion handlers. -/
def allocReg (st : VMState) (slot : Nat) (value : ObjValue)
    (proto : ObjectId) : VMState :=
  let (mem, objId) := st.mem.allocate value proto
  VMState.setReg { st with mem := mem } slot objId

def ins_set_integer (st : VMState) (code : CompiledCode)
    (ins : Instruction) : Res VMState := do
  let slot ← argGet ins 0 "missing target slot"
  let index ← argGet ins 1 "missing integer literal index"
  let value ← Res.ofOption (code.integer_literals.get? index)
      "undefined integer literal"
  let prototype ← Res.ofOption st.mem.integer_prototype
      "no Integer prototype set up"
  pure (allocReg st slot (.integer value) prototype)

def ins_set_float (st : VMState) (code : CompiledCode)
    (ins : Instruction) : Res VMState := do
  let slot ← argGet ins 0 "missing target slot"
  let index ← argGet ins 1 "missing float literal index"
  let value ← Res.ofOption (code.float_literals.get? index)
      "undefined float literal"
  let prototype ← Res.ofOption st.mem.float_prototype
      "no Float prototype set up"
  pure (allocReg st slot (.float value) prototype)

def ins_set_string (st : VMState) (code : CompiledCode)
    (ins : Instruction) : Res VMState := do
  let slot ← argGet ins 0 "missing slot index"
  let index ← argGet ins 1 "missing string literal index"
  let value ← Res.ofOption (code.string_literals.get? index)
      "undefined string literal"
  let prototype ← Res.ofOption st.mem.string_prototype
      "no String prototype set up"
  pure (allocReg st slot (.string value) prototype)

/-- Note `ins_set_object` allocates before reading the optional prototype
register, so its error path leaves an orphan allocation behind in the
source; the thread dies with the error, making the orphan unobservable, so
the embedding keeps the pre-instruction state on error. -/
def ins_set_object (st : VMState) (_code : CompiledCode)
    (ins : Instruction) : Res VMState := do
  let slot ← argGet ins 0 "missing slot index"
  let proto_index_opt := ins.arguments.get? 1
  let (mem, objId) := st.mem.new_object .none
  let st1 : VMState := { st with mem := mem }
  match proto_index_opt with
  | some proto_index => do
    let proto ← Res.ofOption (st1.thread.get_register proto_index)
        "prototype is undefined"
    let st2 := st1.updateObj objId (fun o => { o with prototype := some proto })
    pure (st2.setReg slot objId)
  | none => pure (st1.setReg slot objId)

/-- Embeds `collect_arguments`: reads `amount` register indices starting at
argument position `offset`.  The source indexes `instruction.arguments`
directly (`instruction.arguments[index]`), so a missing argument is a Rust
panic, not an `Err`. -/
def collectArgumentsAux (st : VMState) (ins : Instruction) :
    Nat → Nat → Res (List ObjectId)
  | _, 0 => .ok []
  | index, amount + 1 =>
    match ins.arguments.get? index with
    | none => .crash "index out of bounds"
    | some arg_index =>
      match st.thread.get_register arg_index with
      | none => .err ("argument " ++ toString index ++ " is undefined")
      | some arg => do
        let rest ← collectArgumentsAux st ins (index + 1) amount
        pure (arg :: rest)

def collect_arguments (st : VMState) (ins : Instruction)
    (offset amount : Nat) : Res (List ObjectId) :=
  collectArgumentsAux st ins offset amount

def ins_set_array (st : VMState) (_code : CompiledCode)
    (ins : Instruction) : Res VMState := do
  let slot ← argGet ins 0 "missing slot index"
  let val_count ← argGet ins 1 "missing value count"
  let values ← collect_arguments st ins 2 val_count
  let prototype ← Res.ofOption st.mem.array_prototype
      "no Array prototype set up"
  pure (allocReg st slot (.array values) prototype)

def ins_set_name (st : VMState) (code : CompiledCode)
    (ins : Instruction) : Res VMState := do
  let slot ← argGet ins 0 "missing object slot"
  let name_index ← argGet ins 1 "missing string literal index"
  let obj ← Res.ofOption (st.thread.get_register slot)
      "undefined target object"
  let nm ← Res.ofOption (code.string_literals.get? name_index)
      "undefined string literal"
  pure (st.updateObj obj (fun o => { o with name := some nm }))

def ins_set_integer_prototype (st : VMState) (_code : CompiledCode)
    (ins : Instruction) : Res VMState :=
  if st.mem.integer_prototype.isSome then
    .err "prototype already defined"
  else do
    let slot ← argGet ins 0 "missing object slot"
    let object ← Res.ofOption (st.thread.get_register slot)
        "undefined source object"
    pure { st with mem := st.mem.set_integer_prototype object }

def ins_set_float_prototype (st : VMState) (_code : CompiledCode)
    (ins : Instruction) : Res VMState :=
  if st.mem.float_prototype.isSome then
    .err "prototype already defined"
  else do
    let slot ← argGet ins 0 "missing object slot"
    let object ← Res.ofOption (st.thread.get_register slot)
        "undefined source object"
    pure { st with mem := st.mem.set_float_prototype object }

def ins_set_string_prototype (st : VMState) (_code : CompiledCode)
    (ins : Instruction) : Res VMState :=
  if st.mem.string_prototype.isSome then
    .err "prototype already defined"
  else do
    let slot ← argGet ins 0 "missing object slot"
    let object ← Res.ofOption (st.thread.get_register slot)
        "undefined source object"
    pure { st with mem := st.mem.set_string_prototype object }

def ins_set_array_prototype (st : VMState) (_code : CompiledCode)
    (ins : Instruction) : Res VMState :=
  if st.mem.array_prototype.isSome then
    .err "prototype already defined"
  else do
    let slot ← argGet ins 0 "missing object slot"
    let object ← Res.ofOption (st.thread.get_register slot)
        "undefined source object"
    pure { st with mem := st.mem.set_array_prototype object }

def ins_set_thread_prototype (st : VMState) (_code : CompiledCode)
    (ins : Instruction) : Res VMState :=
  if st.mem.thread_prototype.isSome then
    .err "prototype already defined"
  else do
    let slot ← argGet ins 0 "missing object slot"
    let object ← Res.ofOption (st.thread.get_register slot)
        "undefined source object"
    let st1 : VMState := { st with mem := st.mem.set_thread_prototype object }
    pure (backfillThreadPrototypes st1 object)

def ins_set_true_prototype (st : VMState) (_code : CompiledCode)
    (ins : Instruction) : Res VMState :=
  if st.mem.true_prototype.isSome then
    .err "prototype already defined"
  else do
    let slot ← argGet ins 0 "missing object slot"
    let object ← Res.ofOption (st.thread.get_register slot)
        "undefined source object"
    pure { st with mem := st.mem.set_true_prototype object }

def ins_set_false_prototype (st : VMState) (_code : CompiledCode)
    (ins : Instruction) : Res VMState :=
  if st.mem.false_prototype.isSome then
    .err "prototype already defined"
  else do
    let slot ← argGet ins 0 "missing object slot"
    let object ← Res.ofOption (st.thread.get_register slot)
        "undefined source object"
    pure { st with mem := st.mem.set_false_prototype object }

def ins_set_true (st : VMState) (_code : CompiledCode)
    (ins : Instruction) : Res VMState := do
  let slot ← argGet ins 0 "missing object slot"
  let object ← Res.ofOption st.mem.true_object "no True object set up"
  pure (st.setReg slot object)

def ins_set_false (st : VMState) (_code : CompiledCode)
    (ins : Instruction) : Res VMState := do
  let slot ← argGet ins 0 "missing object slot"
  let object ← Res.ofOption st.mem.false_object "no False object set up"
  pure (st.setReg slot object)

def ins_set_local (st : VMState) (_code : CompiledCode)
    (ins : Instruction) : Res VMState := do
  let local_index ← argGet ins 0 "missing local variable index"
  let object_index ← argGet ins 1 "missing object slot"
  let object ← Res.ofOption (st.thread.get_register object_index)
      "undefined object"
  pure { st with thread := st.thread.set_local local_index object }

def ins_get_local (st : VMState) (_code : CompiledCode)
    (ins : Instruction) : Res VMState := do
  let slot_index ← argGet ins 0 "missing slot index"
  let local_index ← argGet ins 1 "missing local variable index"
  let object ← Res.ofOption (st.thread.get_local local_index)
      "undefined local variable index"
  pure (st.setReg slot_index object)

def ins_set_const (st : VMState) (code : CompiledCode)
    (ins : Instruction) : Res VMState := do
  let target_slot ← argGet ins 0 "missing target object slot"
  let source_slot ← argGet ins 1 "missing source object slot"
  let name_index ← argGet ins 2 "missing string literal index"
  let target ← Res.ofOption (st.thread.get_register target_slot)
      "undefined target object"
  let source ← Res.ofOption (st.thread.get_register source_slot)
      "undefined source object"
  let nm ← Res.ofOption (code.string_literals.get? name_index)
      "undefined string literal"
  pure (st.updateObj target (fun o => { o with constants := (nm, source) :: o.constants }))

def ins_get_const (st : VMState) (code : CompiledCode)
    (ins : Instruction) : Res VMState := do
  let index ← argGet ins 0 "missing slot index"
  let src_index ← argGet ins 1 "missing source index"
  let name_index ← argGet ins 2 "missing string literal index"
  let nm ← Res.ofOption (code.string_literals.get? name_index)
      "undefined string literal"
  let src ← Res.ofOption (st.thread.get_register src_index)
      "undefined source object"
  let object ← Res.ofOption (lookup_constant st src nm)
      ("Undefined constant " ++ nm)
  pure (st.setReg index object)

def ins_set_attr (st : VMState) (code : CompiledCode)
    (ins : Instruction) : Res VMState := do
  let target_index ← argGet ins 0 "missing target object slot"
  let source_index ← argGet ins 1 "missing source object slot"
  let name_index ← argGet ins 2 "missing string literal index"
  let target_object ← Res.ofOption (st.thread.get_register target_index)
      "undefined target object"
  let source_object ← Res.ofOption (st.thread.get_register source_index)
      "undefined target object"
  let nm ← Res.ofOption (code.string_literals.get? name_index)
      "undefined string literal"
  pure (st.updateObj target_object
    (fun o => { o with attributes := (nm, source_object) :: o.attributes }))

def ins_get_attr (st : VMState) (code : CompiledCode)
    (ins : Instruction) : Res VMState := do
  let target_index ← argGet ins 0 "missing target slot index"
  let source_index ← argGet ins 1 "missing source slot index"
  let name_index ← argGet ins 2 "missing string literal index"
  let source ← Res.ofOption (st.thread.get_register source_index)
      "undefined source object"
  let nm ← Res.ofOption (code.string_literals.get? name_index)
      "undefined string literal"
  let attr ← Res.ofOption (lookup_attribute st source nm)
      ("undefined attribute \"" ++ nm ++ "\"")
  pure (st.setReg target_index attr)

/-- The decode-and-resolve part of `ins_send`, up to (and including)
prepending the receiver to the argument list; the `run_code` call and the
result-register write stay in the interpreter loop, which invokes the
method's code with the returned pieces. -/
def sendDecode (st : VMState) (code : CompiledCode) (ins : Instruction) :
    Res (Nat × CompiledCode × List ObjectId) := do
  let result_slot ← argGet ins 0 "missing result slot"
  let receiver_slot ← argGet ins 1 "missing receiver slot"
  let name_index ← argGet ins 2 "missing string literal index"
  let allow_private ← argGet ins 3 "missing method visibility"
  let arg_count ← argGet ins 4 "missing argument count"
  let nm ← Res.ofOption (code.string_literals.get? name_index)
      "undefined string literal"
  let receiver ← Res.ofOption (st.thread.get_register receiver_slot)
      ("\"" ++ nm ++ "\" called on an undefined receiver")
  let method_code ← Res.ofOption (lookup_method st receiver nm)
      (undefined_method_error nm)
  if method_code.is_private = true ∧ allow_private = 0 then
    .err (private_method_error nm)
  else do
    let arguments ← collect_arguments st ins 5 arg_count
    if arguments.length ≠ method_code.required_arguments then
      .err ("\"" ++ nm ++ "\" requires "
        ++ toString method_code.required_arguments ++ " arguments, "
        ++ toString arguments.length ++ " given")
    else
      pure (result_slot, method_code, receiver :: arguments)

def ins_return (st : VMState) (_code : CompiledCode)
    (ins : Instruction) : Res (Option ObjectId) := do
  let slot ← argGet ins 0 "missing return slot"
  pure (st.thread.get_register slot)

def ins_goto_if_false (st : VMState) (_code : CompiledCode)
    (ins : Instruction) : Res (Option Nat) := do
  let go_to ← argGet ins 0 "missing instruction index"
  let value_slot ← argGet ins 1 "missing value slot"
  let matched :=
    match st.thread.get_register value_slot with
    | some obj => if (st.objAt obj).truthy then none else some go_to
    | none => some go_to
  pure matched

def ins_goto_if_true (st : VMState) (_code : CompiledCode)
    (ins : Instruction) : Res (Option Nat) := do
  let go_to ← argGet ins 0 "missing instruction index"
  let value_slot ← argGet ins 1 "missing value slot"
  let matched :=
    match st.thread.get_register value_slot with
    | some obj => if (st.objAt obj).truthy then some go_to else none
    | none => none
  pure matched

def ins_goto (_st : VMState) (_code : CompiledCode)
    (ins : Instruction) : Res Nat := do
  let go_to ← argGet ins 0 "missing instruction index"
  pure go_to

def ins_def_method (st : VMState) (code : CompiledCode)
    (ins : Instruction) : Res VMState := do
  let receiver_index ← argGet ins 0 "missing receiver slot"
  let name_index ← argGet ins 1 "missing string literal index"
  let code_index ← argGet ins 2 "missing code object index"
  let receiver ← Res.ofOption (st.thread.get_register receiver_index)
      "undefined receiver"
  let nm ← Res.ofOption (code.string_literals.get? name_index)
      "undefined string literal"
  let method_code ← Res.ofOption (code.code_objects.get? code_index)
      "undefined code object index"
  pure (st.updateObj receiver
    (fun o => { o with methods := (nm, method_code) :: o.methods }))

/-- The decode part of `ins_run_code`; the `run_code` call and the
result-register write stay in the interpreter loop. -/
def runCodeDecode (st : VMState) (code : CompiledCode) (ins : Instruction) :
    Res (Nat × CompiledCode × List ObjectId) := do
  let result_index ← argGet ins 0 "missing result slot"
  let code_index ← argGet ins 1 "missing code object index"
  let arg_count ← argGet ins 2 "missing argument count"
  let code_obj ← Res.ofOption (code.code_objects.get? code_index)
      "undefined code object"
  let arguments ← collect_arguments st ins 3 arg_count
  pure (result_index, code_obj, arguments)

def ins_get_toplevel (st : VMState) (_code : CompiledCode)
    (ins : Instruction) : Res VMState := do
  let slot ← argGet ins 0 "missing slot index"
  pure (st.setReg slot st.mem.top_level)

def ins_integer_add (st : VMState) (_code : CompiledCode)
    (ins : Instruction) : Res VMState := do
  let slot ← argGet ins 0 "missing target slot index"
  let left_index ← argGet ins 1 "missing left-hand slot index"
  let right_index ← argGet ins 2 "missing right-hand slot index"
  let left_object ← Res.ofOption (st.thread.get_register left_index)
      "undefined left-hand object"
  let right_object ← Res.ofOption (st.thread.get_register right_index)
      "undefined right-hand object"
  let prototype ← Res.ofOption st.mem.integer_prototype
      "no Integer prototype set up"
  if !(st.objAt left_object).value.is_integer
      || !(st.objAt right_object).value.is_integer then
    .err "both objects must be integers"
  else
    let added := (st.objAt left_object).value.as_integer
      + (st.objAt right_object).value.as_integer
    pure (allocReg st slot (.integer added) prototype)

/-- Note `ins_integer_div` performs Rust `i64` division with no zero check: a
zero divisor (and `i64::MIN / -1`) is a panic, not an `Err`. -/
def ins_integer_div (st : VMState) (_code : CompiledCode)
    (ins : Instruction) : Res VMState := do
  let slot ← argGet ins 0 "missing target slot index"
  let left_index ← argGet ins 1 "missing left-hand slot index"
  let right_index ← argGet ins 2 "missing right-hand slot index"
  let left_object ← Res.ofOption (st.thread.get_register left_index)
      "undefined left-hand object"
  let right_object ← Res.ofOption (st.thread.get_register right_index)
      "undefined right-hand object"
  let prototype ← Res.ofOption st.mem.integer_prototype
      "no Integer prototype set up"
  if !(st.objAt left_object).value.is_integer
      || !(st.objAt right_object).value.is_integer then
    .err "both objects must be integers"
  else
    let lv := (st.objAt left_object).value.as_integer
    let rv := (st.objAt right_object).value.as_integer
    if rv = 0 then .crash "attempt to divide by zero"
    else if lv = i64Min ∧ rv = -1 then .crash "attempt to divide with overflow"
    else pure (allocReg st slot (.integer (lv.tdiv rv)) prototype)

def ins_integer_mul (st : VMState) (_code : CompiledCode)
    (ins : Instruction) : Res VMState := do
  let slot ← argGet ins 0 "missing target slot index"
  let left_index ← argGet ins 1 "missing left-hand slot index"
  let right_index ← argGet ins 2 "missing right-hand slot index"
  let left_object ← Res.ofOption (st.thread.get_register left_index)
      "undefined left-hand object"
  let right_object ← Res.ofOption (st.thread.get_register right_index)
      "undefined right-hand object"
  let prototype ← Res.ofOption st.mem.integer_prototype
      "no Integer prototype set up"
  if !(st.objAt left_object).value.is_integer
      || !(st.objAt right_object).value.is_integer then
    .err "both objects must be integers"
  else
    let result := (st.objAt left_object).value.as_integer
      * (st.objAt right_object).value.as_integer
    pure (allocReg st slot (.integer result) prototype)

def ins_integer_sub (st : VMState) (_code : CompiledCode)
    (ins : Instruction) : Res VMState := do
  let slot ← argGet ins 0 "missing target slot index"
  let left_index ← argGet ins 1 "missing left-hand slot index"
  let right_index ← argGet ins 2 "missing right-hand slot index"
  let left_object ← Res.ofOption (st.thread.get_register left_index)
      "undefined left-hand object"
  let right_object ← Res.ofOption (st.thread.get_register right_index)
      "undefined right-hand object"
  let prototype ← Res.ofOption st.mem.integer_prototype
      "no Integer prototype set up"
  if !(st.objAt left_object).value.is_integer
      || !(st.objAt right_object).value.is_integer then
    .err "both objects must be integers"
  else
    let result := (st.objAt left_object).value.as_integer
      - (st.objAt right_object).value.as_integer
    pure (allocReg st slot (.integer result) prototype)

/-- Note `ins_integer_mod` performs Rust `%` with no zero check: a zero divisor
(and `i64::MIN % -1`) is a panic, not an `Err`. -/
def ins_integer_mod (st : VMState) (_code : CompiledCode)
    (ins : Instruction) : Res VMState := do
  let slot ← argGet ins 0 "missing target slot index"
  let left_index ← argGet ins 1 "missing left-hand slot index"
  let right_index ← argGet ins 2 "missing right-hand slot index"
  let left_object ← Res.ofOption (st.thread.get_register left_index)
      "undefined left-hand object"
  let right_object ← Res.ofOption (st.thread.get_register right_index)
      "undefined right-hand object"
  let prototype ← Res.ofOption st.mem.integer_prototype
      "no Integer prototype set up"
  if !(st.objAt left_object).value.is_integer
      || !(st.objAt right_object).value.is_integer then
    .err "both objects must be integers"
  else
    let lv := (st.objAt left_object).value.as_integer
    let rv := (st.objAt right_object).value.as_integer
    if rv = 0 then
      .crash "attempt to calculate the remainder with a divisor of zero"
    else if lv = i64Min ∧ rv = -1 then
      .crash "attempt to calculate the remainder with overflow"
    else pure (allocReg st slot (.integer (lv.tmod rv)) prototype)

def ins_integer_to_float (st : VMState) (_code : CompiledCode)
    (ins : Instruction) : Res VMState := do
  let slot ← argGet ins 0 "missing target slot index"
  let int_index ← argGet ins 1 "missing source slot index"
  let integer ← Res.ofOption (st.thread.get_register int_index)
      "undefined source object"
  let prototype ← Res.ofOption st.mem.float_prototype
      "no Float prototype set up"
  if !(st.objAt integer).value.is_integer then
    .err "source object is not an Integer"
  else
    pure (allocReg st slot
      (.float (.ofInt (st.objAt integer).value.as_integer)) prototype)

def ins_integer_to_string (st : VMState) (_code : CompiledCode)
    (ins : Instruction) : Res VMState := do
  let slot ← argGet ins 0 "missing target slot index"
  let int_index ← argGet ins 1 "missing source slot index"
  let integer ← Res.ofOption (st.thread.get_register int_index)
      "undefined source object"
  let prototype ← Res.ofOption st.mem.string_prototype
      "no String prototype set up"
  if !(st.objAt integer).value.is_integer then
    .err "source object is not an Integer"
  else
    let result := intToDecString (st.objAt integer).value.as_integer
    pure (allocReg st slot (.string result) prototype)

def ins_integer_bitwise_and (st : VMState) (_code : CompiledCode)
    (ins : Instruction) : Res VMState := do
  let slot ← argGet ins 0 "missing target slot index"
  let left_index ← argGet ins 1 "missing left-hand slot index"
  let right_index ← argGet ins 2 "missing right-hand slot index"
  let left_object ← Res.ofOption (st.thread.get_register left_index)
      "undefined left-hand object"
  let right_object ← Res.ofOption (st.thread.get_register right_index)
      "undefined right-hand object"
  let prototype ← Res.ofOption st.mem.integer_prototype
      "no Integer prototype set up"
  if !(st.objAt left_object).value.is_integer
      || !(st.objAt right_object).value.is_integer then
    .err "both objects must be integers"
  else
    let result := Int.land (st.objAt left_object).value.as_integer
      ((st.objAt right_object).value.as_integer)
    pure (allocReg st slot (.integer result) prototype)

def ins_integer_bitwise_or (st : VMState) (_code : CompiledCode)
    (ins : Instruction) : Res VMState := do
  let slot ← argGet ins 0 "missing target slot index"
  let left_index ← argGet ins 1 "missing left-hand slot index"
  let right_index ← argGet ins 2 "missing right-hand slot index"
  let left_object ← Res.ofOption (st.thread.get_register left_index)
      "undefined left-hand object"
  let right_object ← Res.ofOption (st.thread.get_register right_index)
      "undefined right-hand object"
  let prototype ← Res.ofOption st.mem.integer_prototype
      "no Integer prototype set up"
  if !(st.objAt left_object).value.is_integer
      || !(st.objAt right_object).value.is_integer then
    .err "both objects must be integers"
  else
    let result := Int.lor (st.objAt left_object).value.as_integer
      ((st.objAt right_object).value.as_integer)
    pure (allocReg st slot (.integer result) prototype)

def ins_integer_bitwise_xor (st : VMState) (_code : CompiledCode)
    (ins : Instruction) : Res VMState := do
  let slot ← argGet ins 0 "missing target slot index"
  let left_index ← argGet ins 1 "missing left-hand slot index"
  let right_index ← argGet ins 2 "missing right-hand slot index"
  let left_object ← Res.ofOption (st.thread.get_register left_index)
      "undefined left-hand object"
  let right_object ← Res.ofOption (st.thread.get_register right_index)
      "undefined right-hand object"
  let prototype ← Res.ofOption st.mem.integer_prototype
      "no Integer prototype set up"
  if !(st.objAt left_object).value.is_integer
      || !(st.objAt right_object).value.is_integer then
    .err "both objects must be integers"
  else
    let result := Int.xor (st.objAt left_object).value.as_integer
      ((st.objAt right_object).value.as_integer)
    pure (allocReg st slot (.integer result) prototype)

/-- Left shift; Rust `<<` on a negative or oversized shift amount is a
masked/panicking edge case that no program in scope exercises, so the
embedding uses multiplication by `2 ^ shift`. -/
def ins_integer_shift_left (st : VMState) (_code : CompiledCode)
    (ins : Instruction) : Res VMState := do
  let slot ← argGet ins 0 "missing target slot index"
  let left_index ← argGet ins 1 "missing left-hand slot index"
  let right_index ← argGet ins 2 "missing right-hand slot index"
  let left_object ← Res.ofOption (st.thread.get_register left_index)
      "undefined left-hand object"
  let right_object ← Res.ofOption (st.thread.get_register right_index)
      "undefined right-hand object"
  let prototype ← Res.ofOption st.mem.integer_prototype
      "no Integer prototype set up"
  if !(st.objAt left_object).value.is_integer
      || !(st.objAt right_object).value.is_integer then
    .err "both objects must be integers"
  else
    let result := (st.objAt left_object).value.as_integer
      * 2 ^ ((st.objAt right_object).value.as_integer).toNat
    pure (allocReg st slot (.integer result) prototype)

/-- Arithmetic right shift: floor division by `2 ^ shift`. -/
def ins_integer_shift_right (st : VMState) (_code : CompiledCode)
    (ins : Instruction) : Res VMState := do
  let slot ← argGet ins 0 "missing target slot index"
  let left_index ← argGet ins 1 "missing left-hand slot index"
  let right_index ← argGet ins 2 "missing right-hand slot index"
  let left_object ← Res.ofOption (st.thread.get_register left_index)
      "undefined left-hand object"
  let right_object ← Res.ofOption (st.thread.get_register right_index)
      "undefined right-hand object"
  let prototype ← Res.ofOption st.mem.integer_prototype
      "no Integer prototype set up"
  if !(st.objAt left_object).value.is_integer
      || !(st.objAt right_object).value.is_integer then
    .err "both objects must be integers"
  else
    let result := Int.fdiv (st.objAt left_object).value.as_integer
      (2 ^ ((st.objAt right_object).value.as_integer).toNat)
    pure (allocReg st slot (.integer result) prototype)

def ins_integer_smaller (st : VMState) (_code : CompiledCode)
    (ins : Instruction) : Res VMState := do
  let slot ← argGet ins 0 "missing target slot index"
  let left_index ← argGet ins 1 "missing left-hand slot index"
  let right_index ← argGet ins 2 "missing right-hand slot index"
  let left_object ← Res.ofOption (st.thread.get_register left_index)
      "undefined left-hand object"
  let right_object ← Res.ofOption (st.thread.get_register right_index)
      "undefined right-hand object"
  if !(st.objAt left_object).value.is_integer
      || !(st.objAt right_object).value.is_integer then
    .err "both objects must be integers"
  else
    let smaller := (st.objAt left_object).value.as_integer
      < (st.objAt right_object).value.as_integer
    if smaller then do
      let boolean ← Res.ofOption st.mem.true_object
          "no \"true\" object set up"
      pure (st.setReg slot boolean)
    else do
      let boolean ← Res.ofOption st.mem.false_object
          "no \"false\" object set up"
      pure (st.setReg slot boolean)

def ins_integer_greater (st : VMState) (_code : CompiledCode)
    (ins : Instruction) : Res VMState := do
  let slot ← argGet ins 0 "missing target slot index"
  let left_index ← argGet ins 1 "missing left-hand slot index"
  let right_index ← argGet ins 2 "missing right-hand slot index"
  let left_object ← Res.ofOption (st.thread.get_register left_index)
      "undefined left-hand object"
  let right_object ← Res.ofOption (st.thread.get_register right_index)
      "undefined right-hand object"
  if !(st.objAt left_object).value.is_integer
      || !(st.objAt right_object).value.is_integer then
    .err "both objects must be integers"
  else
    let greater := (st.objAt left_object).value.as_integer
      > (st.objAt right_object).value.as_integer
    if greater then do
      let boolean ← Res.ofOption st.mem.true_object
          "no \"true\" object set up"
      pure (st.setReg slot boolean)
    else do
      let boolean ← Res.ofOption st.mem.false_object
          "no \"false\" object set up"
      pure (st.setReg slot boolean)

def ins_integer_equal (st : VMState) (_code : CompiledCode)
    (ins : Instruction) : Res VMState := do
  let slot ← argGet ins 0 "missing target slot index"
  let left_index ← argGet ins 1 "missing left-hand slot index"
  let right_index ← argGet ins 2 "missing right-hand slot index"
  let left_object ← Res.ofOption (st.thread.get_register left_index)
      "undefined left-hand object"
  let right_object ← Res.ofOption (st.thread.get_register right_index)
      "undefined right-hand object"
  if !(st.objAt left_object).value.is_integer
      || !(st.objAt right_object).value.is_integer then
    .err "both objects must be integers"
  else
    let equal := (st.objAt left_object).value.as_integer
      = (st.objAt right_object).value.as_integer
    if equal then do
      let boolean ← Res.ofOption st.mem.true_object
          "no \"true\" object set up"
      pure (st.setReg slot boolean)
    else do
      let boolean ← Res.ofOption st.mem.false_object
          "no \"false\" object set up"
      pure (st.setReg slot boolean)

def ins_start_thread (st : VMState) (code : CompiledCode)
    (ins : Instruction) : Res VMState := do
  let slot ← argGet ins 0 "missing slot index"
  let code_index ← argGet ins 1 "missing code object index"
  let _thread_code ← Res.ofOption (code.code_objects.get? code_index)
      "undefined code object"
  let _proto ← Res.ofOption st.mem.thread_prototype
      "no Thread prototype set up"
  let (st1, thread_object) := runThreadAlloc st
  pure (st1.setReg slot thread_object)

/-! ## The interpreter loop -/

/-- The final outcome of one interpreter run: `Ok(Option<RcObject>)`,
`Err(String)`, a Rust panic, or fuel exhaustion (the embedding's marker for
a loop that has not terminated within the given fuel). -/
inductive Outcome where
  | ok (val : Option ObjectId)
  | err (msg : String)
  | crash (msg : String)
  | timeout
deriving DecidableEq, Repr

/-- Modelled from the spec: `CallFrame::from_code` derives the frame's
source location from the CompiledCode (§4.3 step 5). -/
def Frame.from_code (code : CompiledCode) : Frame :=
  { file := code.file, name := code.name, line := code.line }

/-- The entry half of `run_code`: push a CallFrame derived from the code,
then `add_local` each argument in order. -/
def pushFrameLocals (st : VMState) (code : CompiledCode)
    (args : List ObjectId) : VMState :=
  let st1 : VMState := { st with thread := st.thread.push_call_frame (Frame.from_code code) }
  args.foldl (fun acc a => { acc with thread := acc.thread.add_local a }) st1

def popFrameS (st : VMState) : VMState :=
  { st with thread := st.thread.pop_call_frame }

/-- What the dispatch loop does after executing one instruction: continue
from a new state, store a new pending return value (`Return`), overwrite
the instruction pointer (`Goto`), set `skip_until` (`GotoIfTrue`/
`GotoIfFalse`), or halt the run with a final state and outcome. -/
inductive StepKind where
  | continue (st : VMState)
  | setRetval (rv : Option ObjectId)
  | jump (target : Nat)
  | setSkip (sk : Option Nat)
  | halt (out : VMState × Outcome)

/-- The `try!` pattern of every state-returning handler call in `run`: on
`Ok` the loop continues with the new state; an `Err` (or a panic) aborts
the run, keeping the pre-instruction state (see `Res`). -/
def resContinue (st : VMState) : Res VMState → StepKind
  | .ok st1 => .continue st1
  | .err m => .halt (st, .err m)
  | .crash m => .halt (st, .crash m)

/-- The shared tail of `ins_send` and `ins_run_code` around the nested
`run_code` result: on `Ok` pop the frame and write the result register
only when a value was returned, then continue; `try!` propagates an `Err`
(and a panic unwinds) without popping. -/
def invokeContinue (result_slot : Nat) : VMState × Outcome → StepKind
  | (st1, .ok retv) =>
    match retv with
    | some v => .continue ((popFrameS st1).setReg result_slot v)
    | none => .continue (popFrameS st1)
  | (st1, .err m) => .halt (st1, .err m)
  | (st1, .crash m) => .halt (st1, .crash m)
  | (st1, .timeout) => .halt (st1, .timeout)

/-- The dispatch `match` of `run`, one case per opcode, parameterised by
the nested-run entry point (`nested` is instantiated with `run` on the
current fuel inside `runLoop`) so that the dispatch itself is
non-recursive.  `Send` and `RunCode` push the frame with the arguments as
locals, run the nested code and finish through `invokeContinue`. -/
def execIns (nested : VMState → CompiledCode → VMState × Outcome)
    (st : VMState) (code : CompiledCode) (ins : Instruction) : StepKind :=
  match ins.itype with
  | .SetInteger => resContinue st (ins_set_integer st code ins)
  | .SetFloat => resContinue st (ins_set_float st code ins)
  | .SetString => resContinue st (ins_set_string st code ins)
  | .SetObject => resContinue st (ins_set_object st code ins)
  | .SetArray => resContinue st (ins_set_array st code ins)
  | .SetName => resContinue st (ins_set_name st code ins)
  | .SetIntegerPrototype => resContinue st (ins_set_integer_prototype st code ins)
  | .SetFloatPrototype => resContinue st (ins_set_float_prototype st code ins)
  | .SetStringPrototype => resContinue st (ins_set_string_prototype st code ins)
  | .SetArrayPrototype => resContinue st (ins_set_array_prototype st code ins)
  | .SetThreadPrototype => resContinue st (ins_set_thread_prototype st code ins)
  | .SetTruePrototype => resContinue st (ins_set_true_prototype st code ins)
  | .SetFalsePrototype => resContinue st (ins_set_false_prototype st code ins)
  | .SetTrue => resContinue st (ins_set_true st code ins)
  | .SetFalse => resContinue st (ins_set_false st code ins)
  | .SetLocal => resContinue st (ins_set_local st code ins)
  | .GetLocal => resContinue st (ins_get_local st code ins)
  | .SetConst => resContinue st (ins_set_const st code ins)
  | .GetConst => resContinue st (ins_get_const st code ins)
  | .SetAttr => resContinue st (ins_set_attr st code ins)
  | .GetAttr => resContinue st (ins_get_attr st code ins)
  | .DefMethod => resContinue st (ins_def_method st code ins)
  | .GetToplevel => resContinue st (ins_get_toplevel st code ins)
  | .IntegerAdd => resContinue st (ins_integer_add st code ins)
  | .IntegerDiv => resContinue st (ins_integer_div st code ins)
  | .IntegerMul => resContinue st (ins_integer_mul st code ins)
  | .IntegerSub => resContinue st (ins_integer_sub st code ins)
  | .IntegerMod => resContinue st (ins_integer_mod st code ins)
  | .IntegerToFloat => resContinue st (ins_integer_to_float st code ins)
  | .IntegerToString => resContinue st (ins_integer_to_string st code ins)
  | .IntegerBitwiseAnd => resContinue st (ins_integer_bitwise_and st code ins)
  | .IntegerBitwiseOr => resContinue st (ins_integer_bitwise_or st code ins)
  | .IntegerBitwiseXor => resContinue st (ins_integer_bitwise_xor st code ins)
  | .IntegerShiftLeft => resContinue st (ins_integer_shift_left st code ins)
  | .IntegerShiftRight => resContinue st (ins_integer_shift_right st code ins)
  | .IntegerSmaller => resContinue st (ins_integer_smaller st code ins)
  | .IntegerGreater => resContinue st (ins_integer_greater st code ins)
  | .IntegerEqual => resContinue st (ins_integer_equal st code ins)
  | .StartThread => resContinue st (ins_start_thread st code ins)
  | .Send =>
    match sendDecode st code ins with
    | .ok (result_slot, method_code, arguments) =>
      invokeContinue result_slot
        (nested (pushFrameLocals st method_code arguments) method_code)
    | .err m => .halt (st, .err m)
    | .crash m => .halt (st, .crash m)
  | .Return =>
    match ins_return st code ins with
    | .ok retv => .setRetval retv
    | .err m => .halt (st, .err m)
    | .crash m => .halt (st, .crash m)
  | .GotoIfFalse =>
    match ins_goto_if_false st code ins with
    | .ok skv => .setSkip skv
    | .err m => .halt (st, .err m)
    | .crash m => .halt (st, .crash m)
  | .GotoIfTrue =>
    match ins_goto_if_true st code ins with
    | .ok skv => .setSkip skv
    | .err m => .halt (st, .err m)
    | .crash m => .halt (st, .crash m)
  | .Goto =>
    match ins_goto st code ins with
    | .ok go_to => .jump go_to
    | .err m => .halt (st, .err m)
    | .crash m => .halt (st, .crash m)
  | .RunCode =>
    match runCodeDecode st code ins with
    | .ok (result_index, code_obj, arguments) =>
      invokeContinue result_index
        (nested (pushFrameLocals st code_obj arguments) code_obj)
    | .err m => .halt (st, .err m)
    | .crash m => .halt (st, .crash m)

/-- The dispatch loop of `run`, fuel-indexed.  Mirrors the source loop
exactly: the loop exits (yielding `retval`) when `index` reaches the end;
otherwise, when `skip_until` is set and `index < skip_until` the source
executes `continue` WITHOUT incrementing `index` (so such a configuration
self-loops); otherwise `skip_until` is cleared, `index` is incremented
before dispatch, and the instruction is dispatched on its opcode via
`execIns`, whose nested-run entry re-checks the stop flag exactly as `run`
does. -/
def runLoop : Nat → VMState → CompiledCode → Nat → Option Nat →
    Option ObjectId → VMState × Outcome
  | 0, st, _, _, _, _ => (st, .timeout)
  | fuel + 1, st, code, index, skipUntil, retval =>
    match code.instructions.get? index with
    | none => (st, .ok retval)
    | some ins =>
      if skipUntil.any (fun t => decide (index < t)) then
        runLoop fuel st code index skipUntil retval
      else
        match execIns
            (fun s c => if s.thread.stop then (s, Outcome.ok none)
                        else runLoop fuel s c 0 none none)
            st code ins with
        | .continue st1 => runLoop fuel st1 code (index + 1) none retval
        | .setRetval rv => runLoop fuel st code (index + 1) none rv
        | .jump t => runLoop fuel st code t none retval
        | .setSkip sk => runLoop fuel st code (index + 1) sk retval
        | .halt out => out

/-- Embeds `run`: the interpreter entry point.  The thread's stop flag is
consulted once, here, before the loop; the loop itself never re-checks
it. -/
def run (fuel : Nat) (st : VMState) (code : CompiledCode) :
    VMState × Outcome :=
  if st.thread.stop then (st, .ok none)
  else runLoop fuel st code 0 none none

/-- Embeds `run_code`: push a CallFrame, install the arguments as locals, run the
nested code, and pop the frame — but only on `Ok`; `try!` returns early on
`Err` (and a panic unwinds), leaving the frame on the chain. -/
def run_code (fuel : Nat) (st : VMState) (code : CompiledCode)
    (args : List ObjectId) : VMState × Outcome :=
  match run fuel (pushFrameLocals st code args) code with
  | (st1, .ok retv) => (popFrameS st1, .ok retv)
  | other => other

/-! ## Concrete fixtures

The initial state of a fresh VM running a single thread: the manager owns
only the top-level object (id 0), the thread has one CallFrame and an empty
register file, mirroring the `Thread::new(call_frame!(), None)` setup of the
source's tests. -/

def testFrame : Frame := { file := "test", name := "test", line := 1 }

def initThread : ThreadState := { frames := [testFrame] }

def initMM : MMState := { heap := [{}] }

def initState : VMState := { mem := initMM, thread := initThread }

/-- Shorthand for building a test CompiledCode with integer literals. -/
def mkCode (instructions : List Instruction) (ints : List Int) :
    CompiledCode :=
  .mk "test" "test" 1 instructions ints [] [] [] 0 false

/-- The program refuting C1: two `Return`s with another instruction between
them. -/
def c1Code : CompiledCode := mkCode
  [ { itype := .SetObject, arguments := [0] },
    { itype := .SetIntegerPrototype, arguments := [0] },
    { itype := .SetInteger, arguments := [1, 0] },
    { itype := .Return, arguments := [1] },
    { itype := .SetInteger, arguments := [2, 1] },
    { itype := .Return, arguments := [2] } ]
  [10, 20]

/-- The configuration refuting C3: a `GotoIfFalse` whose target lies more
than one instruction ahead, with nothing in the tested register. -/
def c3Code : CompiledCode := mkCode
  [ { itype := .GotoIfFalse, arguments := [2, 0] },
    { itype := .SetObject, arguments := [0] },
    { itype := .SetObject, arguments := [1] } ] []

def stopState : VMState :=
  { initState with thread := { initThread with stop := true } }

def c4Code : CompiledCode := mkCode
  [ { itype := .SetObject, arguments := [0] } ] []

/-- A division by zero reached through ordinary execution. -/
def c2Code : CompiledCode := mkCode
  [ { itype := .SetObject, arguments := [0] },
    { itype := .SetIntegerPrototype, arguments := [0] },
    { itype := .SetInteger, arguments := [1, 0] },
    { itype := .SetInteger, arguments := [2, 1] },
    { itype := .IntegerDiv, arguments := [3, 1, 2] } ]
  [1, 0]

def c5Code : CompiledCode := mkCode
  [ { itype := .SetArray, arguments := [0, 1] } ] []

/-- Nested code for C9: writes the caller's result slot, returns no
value. -/
def c9Nested : CompiledCode := mkCode
  [ { itype := .SetInteger, arguments := [1, 0] } ] [20]

def c9Code : CompiledCode :=
  .mk "test" "test" 1
    [ { itype := .SetObject, arguments := [0] },
      { itype := .SetIntegerPrototype, arguments := [0] },
      { itype := .SetInteger, arguments := [1, 0] },
      { itype := .RunCode, arguments := [1, 0, 0] } ]
    [10] [] [] [c9Nested] 0 false

/-- The same program stopped just before the `RunCode`. -/
def c9Prefix : CompiledCode := mkCode
  [ { itype := .SetObject, arguments := [0] },
    { itype := .SetIntegerPrototype, arguments := [0] },
    { itype := .SetInteger, arguments := [1, 0] } ]
  [10]

/-! ## Parsing integer literals (the spec side of the C8 round trip)

Modelled from the spec: "`IntegerToString` followed by parsing back as an
integer literal yields the original value".  An integer literal is an
optional minus sign followed by one or more decimal digits. -/

def charDigit? (c : Char) : Option Nat :=
  if '0' ≤ c ∧ c ≤ '9' then some (c.toNat - '0'.toNat) else none

def parseDigitsAux : Nat → List Char → Option Nat
  | acc, [] => some acc
  | acc, c :: cs =>
    match charDigit? c with
    | some d => parseDigitsAux (acc * 10 + d) cs
    | none => none

def parseDigits (cs : List Char) : Option Nat :=
  if cs.isEmpty then none else parseDigitsAux 0 cs

def parseIntLitChars : List Char → Option Int
  | [] => none
  | c :: cs =>
    if c = '-' then
      match parseDigits cs with
      | some n => some (-(n : Int))
      | none => none
    else
      match parseDigits (c :: cs) with
      | some n => some ((n : Int))
      | none => none

/-- Parse a string as an integer literal: optional `-`, then decimal
digits. -/
def parseIntLit (s : String) : Option Int :=
  parseIntLitChars s.data

/-! ## The claims -/

/-- A nested CompiledCode whose first instruction fails to decode,
exercising the error path of `run_code`. -/
def failingCode : CompiledCode := mkCode
  [ { itype := .SetInteger, arguments := [] } ] []

/-- A concrete state holding integer objects 1 (register 1) and 0
(register 2), with the Integer prototype installed (object 1). -/
def divState : VMState :=
  { mem :=
      { heap :=
          [ {}, {},
            { value := .integer 1, prototype := some 1 },
            { value := .integer 0, prototype := some 1 } ]
        integer_prototype := some 1 }
    thread := { frames := [testFrame], registers := [(1, 2), (2, 3)] } }

/-- A method requiring one argument besides `self`. -/
def methodCode : CompiledCode := .mk "inc" "test" 1 [] [] [] [] [] 1 false

/-- A receiver object (id 1) carrying the method `"inc"`, in register 1. -/
def sendState : VMState :=
  { mem := { heap := [{}, { methods := [("inc", methodCode)] }] }
    thread := { frames := [testFrame], registers := [(1, 1)] } }

def sendCode : CompiledCode := .mk "test" "test" 1 [] [] [] ["inc"] [] 0 false

def sendIns : Instruction :=
  { itype := .Send, arguments := [0, 1, 0, 1, 0] }

/-- The well-known prototypes of this VM: those with a `Set*Prototype`
instruction in the dispatch table. -/
inductive ProtoKind where
  | int | flt | str | arr | thrd | tru | fls
deriving DecidableEq, Repr

def protoHandler :
    ProtoKind → (VMState → CompiledCode → Instruction → Res VMState)
  | .int => ins_set_integer_prototype
  | .flt => ins_set_float_prototype
  | .str => ins_set_string_prototype
  | .arr => ins_set_array_prototype
  | .thrd => ins_set_thread_prototype
  | .tru => ins_set_true_prototype
  | .fls => ins_set_false_prototype

def getProtoSlot (st : VMState) : ProtoKind → Option ObjectId
  | .int => st.mem.integer_prototype
  | .flt => st.mem.float_prototype
  | .str => st.mem.string_prototype
  | .arr => st.mem.array_prototype
  | .thrd => st.mem.thread_prototype
  | .tru => st.mem.true_prototype
  | .fls => st.mem.false_prototype

def protoInsFor : ProtoKind → Instruction
  | .int => { itype := .SetIntegerPrototype, arguments := [0] }
  | .flt => { itype := .SetFloatPrototype, arguments := [0] }
  | .str => { itype := .SetStringPrototype, arguments := [0] }
  | .arr => { itype := .SetArrayPrototype, arguments := [0] }
  | .thrd => { itype := .SetThreadPrototype, arguments := [0] }
  | .tru => { itype := .SetTruePrototype, arguments := [0] }
  | .fls => { itype := .SetFalsePrototype, arguments := [0] }

/-- One entry per instruction whose handler consults the given prototype
slot (or, for True/False, the singleton allocated with it) before doing
its work. -/
def dependentsOf :
    ProtoKind → List ((VMState → CompiledCode → Instruction → Res VMState) × Instruction)
  | .int =>
    [ (ins_set_integer, { itype := .SetInteger, arguments := [1, 0] }),
      (ins_integer_add, { itype := .IntegerAdd, arguments := [1, 2, 3] }),
      (ins_integer_div, { itype := .IntegerDiv, arguments := [1, 2, 3] }),
      (ins_integer_mul, { itype := .IntegerMul, arguments := [1, 2, 3] }),
      (ins_integer_sub, { itype := .IntegerSub, arguments := [1, 2, 3] }),
      (ins_integer_mod, { itype := .IntegerMod, arguments := [1, 2, 3] }),
      (ins_integer_bitwise_and,
        { itype := .IntegerBitwiseAnd, arguments := [1, 2, 3] }),
      (ins_integer_bitwise_or,
        { itype := .IntegerBitwiseOr, arguments := [1, 2, 3] }),
      (ins_integer_bitwise_xor,
        { itype := .IntegerBitwiseXor, arguments := [1, 2, 3] }),
      (ins_integer_shift_left,
        { itype := .IntegerShiftLeft, arguments := [1, 2, 3] }),
      (ins_integer_shift_right,
        { itype := .IntegerShiftRight, arguments := [1, 2, 3] }) ]
  | .flt =>
    [ (ins_set_float, { itype := .SetFloat, arguments := [1, 0] }),
      (ins_integer_to_float, { itype := .IntegerToFloat, arguments := [1, 2] }) ]
  | .str =>
    [ (ins_set_string, { itype := .SetString, arguments := [1, 0] }),
      (ins_integer_to_string,
        { itype := .IntegerToString, arguments := [1, 2] }) ]
  | .arr => [ (ins_set_array, { itype := .SetArray, arguments := [1, 0] }) ]
  | .thrd => [ (ins_start_thread, { itype := .StartThread, arguments := [1, 0] }) ]
  | .tru => [ (ins_set_true, { itype := .SetTrue, arguments := [1] }) ]
  | .fls => [ (ins_set_false, { itype := .SetFalse, arguments := [1] }) ]

def noProtoMsg : ProtoKind → String
  | .int => "no Integer prototype set up"
  | .flt => "no Float prototype set up"
  | .str => "no String prototype set up"
  | .arr => "no Array prototype set up"
  | .thrd => "no Thread prototype set up"
  | .tru => "no True object set up"
  | .fls => "no False object set up"

/-- A fresh state with no prototype installed: the candidate prototype
object (id 1) in register 0, and registers 2 and 3 holding objects so that
every dependent instruction decodes past its register reads and fails on
the prototype (or singleton) check itself. -/
def protoState : VMState :=
  { mem := { heap := [{}, {}] }
    thread :=
      { frames := [testFrame], registers := [(0, 1), (2, 1), (3, 1)] } }

/-- Literal pools rich enough that every dependent instruction's literal
and code-object dereferences succeed, isolating the prototype check. -/
def protoCode : CompiledCode :=
  .mk "test" "test" 1 [] [0] [.lit 0] ["x"] [.mk "n" "n" 1 [] [] [] [] [] 0 false]
    0 false

/-- A state with an integer object holding -42 in register 2 and the
String prototype installed (object 1). -/
def strState : VMState :=
  { mem :=
      { heap := [{}, {}, { value := .integer (-42) }]
        string_prototype := some 1 }
    thread := { frames := [testFrame], registers := [(2, 2)] } }

/-- An outer program that is just `RunCode 0 0 0` invoking an empty nested
code object. -/
def c9SimpleCode : CompiledCode :=
  .mk "test" "test" 1 [ { itype := .RunCode, arguments := [0, 0, 0] } ]
    [] [] [] [mkCode [] []] 0 false

@[simp] theorem Res.bind_ok (v : α) (f : α → Res β) :
    Res.bind (.ok v) f = f v := rfl

@[simp] theorem Res.bind_err (m : String) (f : α → Res β) :
    Res.bind (.err m) f = (.err m : Res β) := rfl

@[simp] theorem Res.bind_crash (m : String) (f : α → Res β) :
    Res.bind (.crash m) f = (.crash m : Res β) := rfl

@[simp] theorem Res.monadBind_def (x : Res α) (f : α → Res β) :
    (x >>= f) = Res.bind x f := rfl

@[simp] theorem Res.pure_def (v : α) : (pure v : Res α) = Res.ok v := rfl

@[simp] theorem Res.ofOption_some (v : α) (msg : String) :
    Res.ofOption (some v) msg = .ok v := rfl

@[simp] theorem Res.ofOption_none (msg : String) :
    Res.ofOption (none : Option α) msg = (.err msg : Res α) := rfl

@[simp] theorem argGet_def (ins : Instruction) (i : Nat) (msg : String) :
    argGet ins i msg = Res.ofOption (ins.arguments.get? i) msg := rfl

example : (run 20 initState c1Code).2 = .ok (some 3) := by decide

example : (run 20 initState c1Code).1.regValue? 2 = some (.integer 20) := by
  decide

example : (run 10 initState c3Code).2 = .timeout := by decide

example : (run 5 stopState c4Code).2 = .ok none := by decide
example : (runLoop 5 stopState c4Code 0 none none).1.thread.get_register 0
    = some 1 := by decide

example : (run 10 initState c2Code).2 = .crash "attempt to divide by zero" := by
  decide

example : (run 10 initState c5Code).2 = .crash "index out of bounds" := by
  decide

example : (run 20 initState c9Prefix).1.regValue? 1 = some (.integer 10) := by
  decide
example : (run 20 initState c9Code).2 = .ok none := by decide
example : (run 20 initState c9Code).1.regValue? 1 = some (.integer 20) := by
  decide

/-! ### The round trip, digit level -/

theorem ofDigits_natDigitsRevAux (fuel : Nat) :
    ∀ n, n ≤ fuel → Nat.ofDigits 10 (natDigitsRevAux fuel n) = n := by
  induction fuel with
  | zero =>
    intro n hn
    interval_cases n
    simp [natDigitsRevAux]
  | succ g ih =>
    intro n hn
    match n with
    | 0 => simp [natDigitsRevAux]
    | m + 1 =>
      rw [natDigitsRevAux, Nat.ofDigits_cons,
        ih ((m + 1) / 10) (by omega)]
      omega

theorem ofDigits_natDigitsRev (n : Nat) :
    Nat.ofDigits 10 (natDigitsRev n) = n :=
  ofDigits_natDigitsRevAux n n le_rfl

theorem natDigitsRevAux_lt (fuel : Nat) :
    ∀ n d, d ∈ natDigitsRevAux fuel n → d < 10 := by
  induction fuel with
  | zero =>
    intro n d hd
    match n with
    | 0 => simp [natDigitsRevAux] at hd
    | m + 1 => simp [natDigitsRevAux] at hd
  | succ g ih =>
    intro n d hd
    match n with
    | 0 => simp [natDigitsRevAux] at hd
    | m + 1 =>
      rw [natDigitsRevAux] at hd
      rcases List.mem_cons.mp hd with h | h
      · omega
      · exact ih _ d h

theorem charDigit?_digitChar {d : Nat} (hd : d < 10) :
    charDigit? (Nat.digitChar d) = some d := by
  interval_cases d <;> decide

theorem parseDigitsAux_map (L : List Nat) :
    ∀ acc, (∀ d ∈ L, d < 10) →
      parseDigitsAux acc (L.map Nat.digitChar)
        = some (L.foldl (fun a d => a * 10 + d) acc) := by
  induction L with
  | nil => intro acc _; rfl
  | cons d L ih =>
    intro acc hL
    rw [List.map_cons, parseDigitsAux,
      charDigit?_digitChar (hL d (List.mem_cons_self d L))]
    exact ih (acc * 10 + d) (fun x hx => hL x (List.mem_cons_of_mem d hx))

theorem foldl_digits (L : List Nat) :
    ∀ acc, L.foldl (fun a d => a * 10 + d) acc
      = acc * 10 ^ L.length + Nat.ofDigits 10 L.reverse := by
  induction L with
  | nil => intro acc; simp
  | cons d L ih =>
    intro acc
    rw [List.foldl_cons, ih, List.reverse_cons, Nat.ofDigits_append]
    simp [Nat.ofDigits_cons, Nat.ofDigits_nil, pow_succ]
    ring

theorem parseDigits_natDecChars (n : Nat) :
    parseDigits (natDecChars n) = some n := by
  match n with
  | 0 => decide
  | m + 1 =>
    have hne : natDigitsRev (m + 1)
        = ((m + 1) % 10) :: natDigitsRevAux m ((m + 1) / 10) := rfl
    have hchars : natDecChars (m + 1)
        = ((natDigitsRev (m + 1)).reverse.map Nat.digitChar) := by
      simp [natDecChars]
    have hdigits : ∀ d ∈ (natDigitsRev (m + 1)).reverse, d < 10 :=
      fun d hd => natDigitsRevAux_lt (m + 1) (m + 1) d (List.mem_reverse.mp hd)
    have hfold := foldl_digits (natDigitsRev (m + 1)).reverse 0
    rw [List.reverse_reverse, ofDigits_natDigitsRev (m + 1)] at hfold
    have hval : parseDigitsAux 0
        ((natDigitsRev (m + 1)).reverse.map Nat.digitChar) = some (m + 1) := by
      rw [parseDigitsAux_map (natDigitsRev (m + 1)).reverse 0 hdigits, hfold]
      simp
    have hnonempty :
        (((natDigitsRev (m + 1)).reverse.map Nat.digitChar).isEmpty) = false := by
      rw [hne]
      simp
    rw [hchars]
    simp only [parseDigits, hnonempty, Bool.false_eq_true, if_false, hval]

/-- Rust's rendering never begins with a minus for nonnegative values, and
its first character is always a decimal digit. -/
theorem natDecChars_head_digit (n : Nat) :
    ∃ c cs, natDecChars n = c :: cs ∧ c ≠ '-' := by
  match n with
  | 0 => exact ⟨'0', [], rfl, by decide⟩
  | m + 1 =>
    have hd10 : (m + 1) % 10 < 10 := Nat.mod_lt _ (by omega)
    have hne : natDigitsRev (m + 1)
        = ((m + 1) % 10) :: natDigitsRevAux m ((m + 1) / 10) := rfl
    have hchars : natDecChars (m + 1)
        = ((natDigitsRev (m + 1)).reverse.map Nat.digitChar) := by
      simp [natDecChars]
    rw [hchars, hne]
    rcases hrev : (natDigitsRevAux m ((m + 1) / 10)).reverse with _ | ⟨c0, cs0⟩
    · refine ⟨Nat.digitChar ((m + 1) % 10), [], ?_, ?_⟩
      · simp [List.reverse_cons, hrev]
      · have := charDigit?_digitChar hd10
        intro hc
        rw [hc] at this
        simp [charDigit?] at this
    · refine ⟨Nat.digitChar c0, ?_, ?_, ?_⟩
      · exact (cs0.map Nat.digitChar)
          ++ [Nat.digitChar ((m + 1) % 10)]
      · simp [List.reverse_cons, hrev]
      · have hc0 : c0 < 10 := by
          have : c0 ∈ natDigitsRevAux m ((m + 1) / 10) := by
            rw [← List.mem_reverse, hrev]
            exact List.mem_cons_self _ _
          exact natDigitsRevAux_lt m ((m + 1) / 10) c0 this
        have := charDigit?_digitChar hc0
        intro hc
        rw [hc] at this
        simp [charDigit?] at this

/-- The C8 round trip at string level: printing any integer in Rust's
decimal format and parsing it back as an integer literal recovers the
value. -/
theorem parseIntLit_intToDecString (v : Int) :
    parseIntLit (intToDecString v) = some v := by
  by_cases hv : v < 0
  · have habs : (1 : Nat) ≤ v.natAbs := by omega
    rw [intToDecString, if_pos hv]
    show parseIntLitChars ('-' :: natDecChars v.natAbs) = some v
    rw [parseIntLitChars, if_pos rfl, parseDigits_natDecChars]
    have habs2 : -((v.natAbs : Int)) = v := by omega
    show some (-(v.natAbs : Int)) = some v
    rw [habs2]
  · rcases natDecChars_head_digit v.natAbs with ⟨c, cs, hc, hcm⟩
    rw [intToDecString, if_neg hv]
    show parseIntLitChars (natDecChars v.natAbs) = some v
    rw [hc, parseIntLitChars, if_neg hcm, ← hc, parseDigits_natDecChars]
    have habs2 : ((v.natAbs : Int)) = v := by omega
    show some ((v.natAbs : Int)) = some v
    rw [habs2]

/-! ## Call-frame depth invariant

Every handler except `Send`/`RunCode` leaves the call-frame stack's depth
unchanged; `run_code` pushes one frame and pops it only on `Ok`.  The
invariant (the frame stack never gets shorter across a loop, whatever the
outcome) is what makes "the failing frame is still on the chain" (C10)
meaningful. -/

@[simp] theorem frames_setReg (st : VMState) (slot : Nat) (id : ObjectId) :
    (st.setReg slot id).thread.frames = st.thread.frames := rfl

@[simp] theorem frames_updateObj (st : VMState) (id : ObjectId)
    (f : Obj → Obj) :
    (st.updateObj id f).thread.frames = st.thread.frames := rfl

@[simp] theorem frames_allocReg (st : VMState) (slot : Nat) (v : ObjValue)
    (p : ObjectId) :
    (allocReg st slot v p).thread.frames = st.thread.frames := rfl

@[simp] theorem frames_length_set_local (t : ThreadState) (i : Nat)
    (id : ObjectId) :
    (t.set_local i id).frames.length = t.frames.length := by
  simp [ThreadState.set_local]

@[simp] theorem frames_length_add_local (t : ThreadState) (id : ObjectId) :
    (t.add_local id).frames.length = t.frames.length := by
  simp [ThreadState.add_local]

theorem frames_backfill_aux (l : List ObjectId) :
    ∀ (acc : VMState) (proto : ObjectId),
      (l.foldl (fun a tid =>
          a.updateObj tid (fun o => { o with prototype := some proto }))
        acc).thread.frames = acc.thread.frames := by
  induction l with
  | nil => intro acc proto; rfl
  | cons x l ih => intro acc proto; rw [List.foldl_cons, ih]; rfl

@[simp] theorem frames_backfill (st : VMState) (proto : ObjectId) :
    (backfillThreadPrototypes st proto).thread.frames = st.thread.frames :=
  frames_backfill_aux st.threads st proto

@[simp] theorem frames_runThreadAlloc (st : VMState) :
    (runThreadAlloc st).1.thread.frames = st.thread.frames := rfl

/-- Continuation lemma for `Res.bind`, specialised to the frame-depth
property: an `ok` result of a bind has frame depth `n` whenever every `ok`
result of the continuation does. -/
theorem pf_bind_frames {α : Type} {x : Res α} {f : α → Res VMState}
    {st' : VMState} {n : Nat} (h : Res.bind x f = .ok st')
    (hf : ∀ a st'', f a = .ok st'' → st''.thread.frames.length = n) :
    st'.thread.frames.length = n := by
  cases x with
  | ok a => exact hf a st' h
  | err m => exact Res.noConfusion h
  | crash m => exact Res.noConfusion h

theorem frames_ins_set_integer {st st' : VMState} {code : CompiledCode}
    {ins : Instruction} (h : ins_set_integer st code ins = .ok st') :
    st'.thread.frames.length = st.thread.frames.length := by
  unfold ins_set_integer at h
  simp only [Res.monadBind_def, Res.pure_def] at h
  repeat' first
    | split at h
    | (refine pf_bind_frames h ?_; clear h; intro a st' h)
  all_goals first
    | (cases h; simp)
    | exact Res.noConfusion h

theorem frames_ins_set_float {st st' : VMState} {code : CompiledCode}
    {ins : Instruction} (h : ins_set_float st code ins = .ok st') :
    st'.thread.frames.length = st.thread.frames.length := by
  unfold ins_set_float at h
  simp only [Res.monadBind_def, Res.pure_def] at h
  repeat' first
    | split at h
    | (refine pf_bind_frames h ?_; clear h; intro a st' h)
  all_goals first
    | (cases h; simp)
    | exact Res.noConfusion h

theorem frames_ins_set_string {st st' : VMState} {code : CompiledCode}
    {ins : Instruction} (h : ins_set_string st code ins = .ok st') :
    st'.thread.frames.length = st.thread.frames.length := by
  unfold ins_set_string at h
  simp only [Res.monadBind_def, Res.pure_def] at h
  repeat' first
    | split at h
    | (refine pf_bind_frames h ?_; clear h; intro a st' h)
  all_goals first
    | (cases h; simp)
    | exact Res.noConfusion h

theorem frames_ins_set_object {st st' : VMState} {code : CompiledCode}
    {ins : Instruction} (h : ins_set_object st code ins = .ok st') :
    st'.thread.frames.length = st.thread.frames.length := by
  unfold ins_set_object at h
  simp only [Res.monadBind_def, Res.pure_def] at h
  repeat' first
    | split at h
    | (refine pf_bind_frames h ?_; clear h; intro a st' h)
  all_goals first
    | (cases h; simp)
    | exact Res.noConfusion h

theorem frames_ins_set_array {st st' : VMState} {code : CompiledCode}
    {ins : Instruction} (h : ins_set_array st code ins = .ok st') :
    st'.thread.frames.length = st.thread.frames.length := by
  unfold ins_set_array at h
  simp only [Res.monadBind_def, Res.pure_def] at h
  repeat' first
    | split at h
    | (refine pf_bind_frames h ?_; clear h; intro a st' h)
  all_goals first
    | (cases h; simp)
    | exact Res.noConfusion h

theorem frames_ins_set_name {st st' : VMState} {code : CompiledCode}
    {ins : Instruction} (h : ins_set_name st code ins = .ok st') :
    st'.thread.frames.length = st.thread.frames.length := by
  unfold ins_set_name at h
  simp only [Res.monadBind_def, Res.pure_def] at h
  repeat' first
    | split at h
    | (refine pf_bind_frames h ?_; clear h; intro a st' h)
  all_goals first
    | (cases h; simp)
    | exact Res.noConfusion h

theorem frames_ins_set_integer_prototype {st st' : VMState} {code : CompiledCode}
    {ins : Instruction} (h : ins_set_integer_prototype st code ins = .ok st') :
    st'.thread.frames.length = st.thread.frames.length := by
  unfold ins_set_integer_prototype at h
  simp only [Res.monadBind_def, Res.pure_def] at h
  repeat' first
    | split at h
    | (refine pf_bind_frames h ?_; clear h; intro a st' h)
  all_goals first
    | (cases h; simp)
    | exact Res.noConfusion h

theorem frames_ins_set_float_prototype {st st' : VMState} {code : CompiledCode}
    {ins : Instruction} (h : ins_set_float_prototype st code ins = .ok st') :
    st'.thread.frames.length = st.thread.frames.length := by
  unfold ins_set_float_prototype at h
  simp only [Res.monadBind_def, Res.pure_def] at h
  repeat' first
    | split at h
    | (refine pf_bind_frames h ?_; clear h; intro a st' h)
  all_goals first
    | (cases h; simp)
    | exact Res.noConfusion h

theorem frames_ins_set_string_prototype {st st' : VMState} {code : CompiledCode}
    {ins : Instruction} (h : ins_set_string_prototype st code ins = .ok st') :
    st'.thread.frames.length = st.thread.frames.length := by
  unfold ins_set_string_prototype at h
  simp only [Res.monadBind_def, Res.pure_def] at h
  repeat' first
    | split at h
    | (refine pf_bind_frames h ?_; clear h; intro a st' h)
  all_goals first
    | (cases h; simp)
    | exact Res.noConfusion h

theorem frames_ins_set_array_prototype {st st' : VMState} {code : CompiledCode}
    {ins : Instruction} (h : ins_set_array_prototype st code ins = .ok st') :
    st'.thread.frames.length = st.thread.frames.length := by
  unfold ins_set_array_prototype at h
  simp only [Res.monadBind_def, Res.pure_def] at h
  repeat' first
    | split at h
    | (refine pf_bind_frames h ?_; clear h; intro a st' h)
  all_goals first
    | (cases h; simp)
    | exact Res.noConfusion h

theorem frames_ins_set_thread_prototype {st st' : VMState} {code : CompiledCode}
    {ins : Instruction} (h : ins_set_thread_prototype st code ins = .ok st') :
    st'.thread.frames.length = st.thread.frames.length := by
  unfold ins_set_thread_prototype at h
  simp only [Res.monadBind_def, Res.pure_def] at h
  repeat' first
    | split at h
    | (refine pf_bind_frames h ?_; clear h; intro a st' h)
  all_goals first
    | (cases h; simp)
    | exact Res.noConfusion h

theorem frames_ins_set_true_prototype {st st' : VMState} {code : CompiledCode}
    {ins : Instruction} (h : ins_set_true_prototype st code ins = .ok st') :
    st'.thread.frames.length = st.thread.frames.length := by
  unfold ins_set_true_prototype at h
  simp only [Res.monadBind_def, Res.pure_def] at h
  repeat' first
    | split at h
    | (refine pf_bind_frames h ?_; clear h; intro a st' h)
  all_goals first
    | (cases h; simp)
    | exact Res.noConfusion h

theorem frames_ins_set_false_prototype {st st' : VMState} {code : CompiledCode}
    {ins : Instruction} (h : ins_set_false_prototype st code ins = .ok st') :
    st'.thread.frames.length = st.thread.frames.length := by
  unfold ins_set_false_prototype at h
  simp only [Res.monadBind_def, Res.pure_def] at h
  repeat' first
    | split at h
    | (refine pf_bind_frames h ?_; clear h; intro a st' h)
  all_goals first
    | (cases h; simp)
    | exact Res.noConfusion h

theorem frames_ins_set_true {st st' : VMState} {code : CompiledCode}
    {ins : Instruction} (h : ins_set_true st code ins = .ok st') :
    st'.thread.frames.length = st.thread.frames.length := by
  unfold ins_set_true at h
  simp only [Res.monadBind_def, Res.pure_def] at h
  repeat' first
    | split at h
    | (refine pf_bind_frames h ?_; clear h; intro a st' h)
  all_goals first
    | (cases h; simp)
    | exact Res.noConfusion h

theorem frames_ins_set_false {st st' : VMState} {code : CompiledCode}
    {ins : Instruction} (h : ins_set_false st code ins = .ok st') :
    st'.thread.frames.length = st.thread.frames.length := by
  unfold ins_set_false at h
  simp only [Res.monadBind_def, Res.pure_def] at h
  repeat' first
    | split at h
    | (refine pf_bind_frames h ?_; clear h; intro a st' h)
  all_goals first
    | (cases h; simp)
    | exact Res.noConfusion h

theorem frames_ins_set_local {st st' : VMState} {code : CompiledCode}
    {ins : Instruction} (h : ins_set_local st code ins = .ok st') :
    st'.thread.frames.length = st.thread.frames.length := by
  unfold ins_set_local at h
  simp only [Res.monadBind_def, Res.pure_def] at h
  repeat' first
    | split at h
    | (refine pf_bind_frames h ?_; clear h; intro a st' h)
  all_goals first
    | (cases h; simp)
    | exact Res.noConfusion h

theorem frames_ins_get_local {st st' : VMState} {code : CompiledCode}
    {ins : Instruction} (h : ins_get_local st code ins = .ok st') :
    st'.thread.frames.length = st.thread.frames.length := by
  unfold ins_get_local at h
  simp only [Res.monadBind_def, Res.pure_def] at h
  repeat' first
    | split at h
    | (refine pf_bind_frames h ?_; clear h; intro a st' h)
  all_goals first
    | (cases h; simp)
    | exact Res.noConfusion h

theorem frames_ins_set_const {st st' : VMState} {code : CompiledCode}
    {ins : Instruction} (h : ins_set_const st code ins = .ok st') :
    st'.thread.frames.length = st.thread.frames.length := by
  unfold ins_set_const at h
  simp only [Res.monadBind_def, Res.pure_def] at h
  repeat' first
    | split at h
    | (refine pf_bind_frames h ?_; clear h; intro a st' h)
  all_goals first
    | (cases h; simp)
    | exact Res.noConfusion h

theorem frames_ins_get_const {st st' : VMState} {code : CompiledCode}
    {ins : Instruction} (h : ins_get_const st code ins = .ok st') :
    st'.thread.frames.length = st.thread.frames.length := by
  unfold ins_get_const at h
  simp only [Res.monadBind_def, Res.pure_def] at h
  repeat' first
    | split at h
    | (refine pf_bind_frames h ?_; clear h; intro a st' h)
  all_goals first
    | (cases h; simp)
    | exact Res.noConfusion h

theorem frames_ins_set_attr {st st' : VMState} {code : CompiledCode}
    {ins : Instruction} (h : ins_set_attr st code ins = .ok st') :
    st'.thread.frames.length = st.thread.frames.length := by
  unfold ins_set_attr at h
  simp only [Res.monadBind_def, Res.pure_def] at h
  repeat' first
    | split at h
    | (refine pf_bind_frames h ?_; clear h; intro a st' h)
  all_goals first
    | (cases h; simp)
    | exact Res.noConfusion h

theorem frames_ins_get_attr {st st' : VMState} {code : CompiledCode}
    {ins : Instruction} (h : ins_get_attr st code ins = .ok st') :
    st'.thread.frames.length = st.thread.frames.length := by
  unfold ins_get_attr at h
  simp only [Res.monadBind_def, Res.pure_def] at h
  repeat' first
    | split at h
    | (refine pf_bind_frames h ?_; clear h; intro a st' h)
  all_goals first
    | (cases h; simp)
    | exact Res.noConfusion h

theorem frames_ins_def_method {st st' : VMState} {code : CompiledCode}
    {ins : Instruction} (h : ins_def_method st code ins = .ok st') :
    st'.thread.frames.length = st.thread.frames.length := by
  unfold ins_def_method at h
  simp only [Res.monadBind_def, Res.pure_def] at h
  repeat' first
    | split at h
    | (refine pf_bind_frames h ?_; clear h; intro a st' h)
  all_goals first
    | (cases h; simp)
    | exact Res.noConfusion h

theorem frames_ins_get_toplevel {st st' : VMState} {code : CompiledCode}
    {ins : Instruction} (h : ins_get_toplevel st code ins = .ok st') :
    st'.thread.frames.length = st.thread.frames.length := by
  unfold ins_get_toplevel at h
  simp only [Res.monadBind_def, Res.pure_def] at h
  repeat' first
    | split at h
    | (refine pf_bind_frames h ?_; clear h; intro a st' h)
  all_goals first
    | (cases h; simp)
    | exact Res.noConfusion h

theorem frames_ins_integer_add {st st' : VMState} {code : CompiledCode}
    {ins : Instruction} (h : ins_integer_add st code ins = .ok st') :
    st'.thread.frames.length = st.thread.frames.length := by
  unfold ins_integer_add at h
  simp only [Res.monadBind_def, Res.pure_def] at h
  repeat' first
    | split at h
    | (refine pf_bind_frames h ?_; clear h; intro a st' h)
  all_goals first
    | (cases h; simp)
    | exact Res.noConfusion h

theorem frames_ins_integer_div {st st' : VMState} {code : CompiledCode}
    {ins : Instruction} (h : ins_integer_div st code ins = .ok st') :
    st'.thread.frames.length = st.thread.frames.length := by
  unfold ins_integer_div at h
  simp only [Res.monadBind_def, Res.pure_def] at h
  repeat' first
    | split at h
    | (refine pf_bind_frames h ?_; clear h; intro a st' h)
  all_goals first
    | (cases h; simp)
    | exact Res.noConfusion h

theorem frames_ins_integer_mul {st st' : VMState} {code : CompiledCode}
    {ins : Instruction} (h : ins_integer_mul st code ins = .ok st') :
    st'.thread.frames.length = st.thread.frames.length := by
  unfold ins_integer_mul at h
  simp only [Res.monadBind_def, Res.pure_def] at h
  repeat' first
    | split at h
    | (refine pf_bind_frames h ?_; clear h; intro a st' h)
  all_goals first
    | (cases h; simp)
    | exact Res.noConfusion h

theorem frames_ins_integer_sub {st st' : VMState} {code : CompiledCode}
    {ins : Instruction} (h : ins_integer_sub st code ins = .ok st') :
    st'.thread.frames.length = st.thread.frames.length := by
  unfold ins_integer_sub at h
  simp only [Res.monadBind_def, Res.pure_def] at h
  repeat' first
    | split at h
    | (refine pf_bind_frames h ?_; clear h; intro a st' h)
  all_goals first
    | (cases h; simp)
    | exact Res.noConfusion h

theorem frames_ins_integer_mod {st st' : VMState} {code : CompiledCode}
    {ins : Instruction} (h : ins_integer_mod st code ins = .ok st') :
    st'.thread.frames.length = st.thread.frames.length := by
  unfold ins_integer_mod at h
  simp only [Res.monadBind_def, Res.pure_def] at h
  repeat' first
    | split at h
    | (refine pf_bind_frames h ?_; clear h; intro a st' h)
  all_goals first
    | (cases h; simp)
    | exact Res.noConfusion h

theorem frames_ins_integer_to_float {st st' : VMState} {code : CompiledCode}
    {ins : Instruction} (h : ins_integer_to_float st code ins = .ok st') :
    st'.thread.frames.length = st.thread.frames.length := by
  unfold ins_integer_to_float at h
  simp only [Res.monadBind_def, Res.pure_def] at h
  repeat' first
    | split at h
    | (refine pf_bind_frames h ?_; clear h; intro a st' h)
  all_goals first
    | (cases h; simp)
    | exact Res.noConfusion h

theorem frames_ins_integer_to_string {st st' : VMState} {code : CompiledCode}
    {ins : Instruction} (h : ins_integer_to_string st code ins = .ok st') :
    st'.thread.frames.length = st.thread.frames.length := by
  unfold ins_integer_to_string at h
  simp only [Res.monadBind_def, Res.pure_def] at h
  repeat' first
    | split at h
    | (refine pf_bind_frames h ?_; clear h; intro a st' h)
  all_goals first
    | (cases h; simp)
    | exact Res.noConfusion h

theorem frames_ins_integer_bitwise_and {st st' : VMState} {code : CompiledCode}
    {ins : Instruction} (h : ins_integer_bitwise_and st code ins = .ok st') :
    st'.thread.frames.length = st.thread.frames.length := by
  unfold ins_integer_bitwise_and at h
  simp only [Res.monadBind_def, Res.pure_def] at h
  repeat' first
    | split at h
    | (refine pf_bind_frames h ?_; clear h; intro a st' h)
  all_goals first
    | (cases h; simp)
    | exact Res.noConfusion h

theorem frames_ins_integer_bitwise_or {st st' : VMState} {code : CompiledCode}
    {ins : Instruction} (h : ins_integer_bitwise_or st code ins = .ok st') :
    st'.thread.frames.length = st.thread.frames.length := by
  unfold ins_integer_bitwise_or at h
  simp only [Res.monadBind_def, Res.pure_def] at h
  repeat' first
    | split at h
    | (refine pf_bind_frames h ?_; clear h; intro a st' h)
  all_goals first
    | (cases h; simp)
    | exact Res.noConfusion h

theorem frames_ins_integer_bitwise_xor {st st' : VMState} {code : CompiledCode}
    {ins : Instruction} (h : ins_integer_bitwise_xor st code ins = .ok st') :
    st'.thread.frames.length = st.thread.frames.length := by
  unfold ins_integer_bitwise_xor at h
  simp only [Res.monadBind_def, Res.pure_def] at h
  repeat' first
    | split at h
    | (refine pf_bind_frames h ?_; clear h; intro a st' h)
  all_goals first
    | (cases h; simp)
    | exact Res.noConfusion h

theorem frames_ins_integer_shift_left {st st' : VMState} {code : CompiledCode}
    {ins : Instruction} (h : ins_integer_shift_left st code ins = .ok st') :
    st'.thread.frames.length = st.thread.frames.length := by
  unfold ins_integer_shift_left at h
  simp only [Res.monadBind_def, Res.pure_def] at h
  repeat' first
    | split at h
    | (refine pf_bind_frames h ?_; clear h; intro a st' h)
  all_goals first
    | (cases h; simp)
    | exact Res.noConfusion h

theorem frames_ins_integer_shift_right {st st' : VMState} {code : CompiledCode}
    {ins : Instruction} (h : ins_integer_shift_right st code ins = .ok st') :
    st'.thread.frames.length = st.thread.frames.length := by
  unfold ins_integer_shift_right at h
  simp only [Res.monadBind_def, Res.pure_def] at h
  repeat' first
    | split at h
    | (refine pf_bind_frames h ?_; clear h; intro a st' h)
  all_goals first
    | (cases h; simp)
    | exact Res.noConfusion h

theorem frames_ins_integer_smaller {st st' : VMState} {code : CompiledCode}
    {ins : Instruction} (h : ins_integer_smaller st code ins = .ok st') :
    st'.thread.frames.length = st.thread.frames.length := by
  unfold ins_integer_smaller at h
  simp only [Res.monadBind_def, Res.pure_def] at h
  repeat' first
    | split at h
    | (refine pf_bind_frames h ?_; clear h; intro a st' h)
  all_goals first
    | (cases h; simp)
    | exact Res.noConfusion h

theorem frames_ins_integer_greater {st st' : VMState} {code : CompiledCode}
    {ins : Instruction} (h : ins_integer_greater st code ins = .ok st') :
    st'.thread.frames.length = st.thread.frames.length := by
  unfold ins_integer_greater at h
  simp only [Res.monadBind_def, Res.pure_def] at h
  repeat' first
    | split at h
    | (refine pf_bind_frames h ?_; clear h; intro a st' h)
  all_goals first
    | (cases h; simp)
    | exact Res.noConfusion h

theorem frames_ins_integer_equal {st st' : VMState} {code : CompiledCode}
    {ins : Instruction} (h : ins_integer_equal st code ins = .ok st') :
    st'.thread.frames.length = st.thread.frames.length := by
  unfold ins_integer_equal at h
  simp only [Res.monadBind_def, Res.pure_def] at h
  repeat' first
    | split at h
    | (refine pf_bind_frames h ?_; clear h; intro a st' h)
  all_goals first
    | (cases h; simp)
    | exact Res.noConfusion h

theorem frames_ins_start_thread {st st' : VMState} {code : CompiledCode}
    {ins : Instruction} (h : ins_start_thread st code ins = .ok st') :
    st'.thread.frames.length = st.thread.frames.length := by
  unfold ins_start_thread at h
  simp only [Res.monadBind_def, Res.pure_def] at h
  repeat' first
    | split at h
    | (refine pf_bind_frames h ?_; clear h; intro a st' h)
  all_goals first
    | (cases h; simp)
    | exact Res.noConfusion h

theorem frames_len_foldl_addLocal (l : List ObjectId) :
    ∀ acc : VMState,
      ((l.foldl (fun acc a => { acc with thread := acc.thread.add_local a })
        acc).thread.frames.length) = acc.thread.frames.length := by
  induction l with
  | nil => intro acc; rfl
  | cons x l ih =>
    intro acc
    rw [List.foldl_cons, ih]
    simp

@[simp] theorem frames_pushFrameLocals (st : VMState) (m : CompiledCode)
    (args : List ObjectId) :
    (pushFrameLocals st m args).thread.frames.length
      = st.thread.frames.length + 1 := by
  unfold pushFrameLocals
  rw [frames_len_foldl_addLocal]
  simp [ThreadState.push_call_frame]

@[simp] theorem frames_popFrameS (st : VMState) :
    (popFrameS st).thread.frames.length = st.thread.frames.length - 1 := by
  simp [popFrameS, ThreadState.pop_call_frame]

theorem resContinue_continue {st : VMState} {r : Res VMState}
    {st1 : VMState} (h : resContinue st r = .continue st1) : r = .ok st1 := by
  cases r with
  | ok v => cases h; rfl
  | err m => exact StepKind.noConfusion h
  | crash m => exact StepKind.noConfusion h

theorem resContinue_halt {st : VMState} {r : Res VMState}
    {out : VMState × Outcome} (h : resContinue st r = .halt out) :
    out.1 = st := by
  cases r with
  | ok v => exact StepKind.noConfusion h
  | err m => cases h; rfl
  | crash m => cases h; rfl

theorem invokeContinue_continue_frames {rs : Nat} {p : VMState × Outcome}
    {st2 : VMState} (h : invokeContinue rs p = .continue st2) :
    st2.thread.frames.length = p.1.thread.frames.length - 1 := by
  obtain ⟨st1, out⟩ := p
  cases out with
  | ok retv =>
    cases retv with
    | none => cases h; simp
    | some v => cases h; simp
  | err m => exact StepKind.noConfusion h
  | crash m => exact StepKind.noConfusion h
  | timeout => exact StepKind.noConfusion h

theorem invokeContinue_halt_fst {rs : Nat} {p : VMState × Outcome}
    {out : VMState × Outcome} (h : invokeContinue rs p = .halt out) :
    out.1 = p.1 := by
  obtain ⟨st1, o⟩ := p
  cases o with
  | ok retv => cases retv <;> exact StepKind.noConfusion h
  | err m => cases h; rfl
  | crash m => cases h; rfl
  | timeout => cases h; rfl

theorem invoke_continue_le
    {nested : VMState → CompiledCode → VMState × Outcome} {rs : Nat}
    {st st1 : VMState} {m : CompiledCode} {args : List ObjectId}
    (h : invokeContinue rs (nested (pushFrameLocals st m args) m)
      = .continue st1)
    (hn : ∀ (s : VMState) (c : CompiledCode),
      s.thread.frames.length ≤ (nested s c).1.thread.frames.length) :
    st.thread.frames.length ≤ st1.thread.frames.length := by
  have h1 := invokeContinue_continue_frames h
  have h2 := hn (pushFrameLocals st m args) m
  rw [frames_pushFrameLocals] at h2
  omega

theorem invoke_halt_le
    {nested : VMState → CompiledCode → VMState × Outcome} {rs : Nat}
    {st : VMState} {m : CompiledCode} {args : List ObjectId}
    {out : VMState × Outcome}
    (h : invokeContinue rs (nested (pushFrameLocals st m args) m) = .halt out)
    (hn : ∀ (s : VMState) (c : CompiledCode),
      s.thread.frames.length ≤ (nested s c).1.thread.frames.length) :
    st.thread.frames.length ≤ out.1.thread.frames.length := by
  have h1 := congrArg (fun s : VMState => s.thread.frames.length)
    (invokeContinue_halt_fst h)
  have h2 := hn (pushFrameLocals st m args) m
  rw [frames_pushFrameLocals] at h2
  simp only [] at h1
  omega

/-- A `continue` step never shrinks the frame stack. -/
theorem execIns_continue_le
    {nested : VMState → CompiledCode → VMState × Outcome}
    {st st1 : VMState} {code : CompiledCode} {ins : Instruction}
    (hn : ∀ (s : VMState) (c : CompiledCode),
      s.thread.frames.length ≤ (nested s c).1.thread.frames.length)
    (h : execIns nested st code ins = .continue st1) :
    st.thread.frames.length ≤ st1.thread.frames.length := by
  cases hty : ins.itype
  case SetInteger =>
    simp only [execIns, hty] at h
    exact le_of_eq (frames_ins_set_integer (resContinue_continue h)).symm
  case SetFloat =>
    simp only [execIns, hty] at h
    exact le_of_eq (frames_ins_set_float (resContinue_continue h)).symm
  case SetString =>
    simp only [execIns, hty] at h
    exact le_of_eq (frames_ins_set_string (resContinue_continue h)).symm
  case SetObject =>
    simp only [execIns, hty] at h
    exact le_of_eq (frames_ins_set_object (resContinue_continue h)).symm
  case SetArray =>
    simp only [execIns, hty] at h
    exact le_of_eq (frames_ins_set_array (resContinue_continue h)).symm
  case SetName =>
    simp only [execIns, hty] at h
    exact le_of_eq (frames_ins_set_name (resContinue_continue h)).symm
  case SetIntegerPrototype =>
    simp only [execIns, hty] at h
    exact le_of_eq (frames_ins_set_integer_prototype (resContinue_continue h)).symm
  case SetFloatPrototype =>
    simp only [execIns, hty] at h
    exact le_of_eq (frames_ins_set_float_prototype (resContinue_continue h)).symm
  case SetStringPrototype =>
    simp only [execIns, hty] at h
    exact le_of_eq (frames_ins_set_string_prototype (resContinue_continue h)).symm
  case SetArrayPrototype =>
    simp only [execIns, hty] at h
    exact le_of_eq (frames_ins_set_array_prototype (resContinue_continue h)).symm
  case SetThreadPrototype =>
    simp only [execIns, hty] at h
    exact le_of_eq (frames_ins_set_thread_prototype (resContinue_continue h)).symm
  case SetTruePrototype =>
    simp only [execIns, hty] at h
    exact le_of_eq (frames_ins_set_true_prototype (resContinue_continue h)).symm
  case SetFalsePrototype =>
    simp only [execIns, hty] at h
    exact le_of_eq (frames_ins_set_false_prototype (resContinue_continue h)).symm
  case SetTrue =>
    simp only [execIns, hty] at h
    exact le_of_eq (frames_ins_set_true (resContinue_continue h)).symm
  case SetFalse =>
    simp only [execIns, hty] at h
    exact le_of_eq (frames_ins_set_false (resContinue_continue h)).symm
  case SetLocal =>
    simp only [execIns, hty] at h
    exact le_of_eq (frames_ins_set_local (resContinue_continue h)).symm
  case GetLocal =>
    simp only [execIns, hty] at h
    exact le_of_eq (frames_ins_get_local (resContinue_continue h)).symm
  case SetConst =>
    simp only [execIns, hty] at h
    exact le_of_eq (frames_ins_set_const (resContinue_continue h)).symm
  case GetConst =>
    simp only [execIns, hty] at h
    exact le_of_eq (frames_ins_get_const (resContinue_continue h)).symm
  case SetAttr =>
    simp only [execIns, hty] at h
    exact le_of_eq (frames_ins_set_attr (resContinue_continue h)).symm
  case GetAttr =>
    simp only [execIns, hty] at h
    exact le_of_eq (frames_ins_get_attr (resContinue_continue h)).symm
  case DefMethod =>
    simp only [execIns, hty] at h
    exact le_of_eq (frames_ins_def_method (resContinue_continue h)).symm
  case GetToplevel =>
    simp only [execIns, hty] at h
    exact le_of_eq (frames_ins_get_toplevel (resContinue_continue h)).symm
  case IntegerAdd =>
    simp only [execIns, hty] at h
    exact le_of_eq (frames_ins_integer_add (resContinue_continue h)).symm
  case IntegerDiv =>
    simp only [execIns, hty] at h
    exact le_of_eq (frames_ins_integer_div (resContinue_continue h)).symm
  case IntegerMul =>
    simp only [execIns, hty] at h
    exact le_of_eq (frames_ins_integer_mul (resContinue_continue h)).symm
  case IntegerSub =>
    simp only [execIns, hty] at h
    exact le_of_eq (frames_ins_integer_sub (resContinue_continue h)).symm
  case IntegerMod =>
    simp only [execIns, hty] at h
    exact le_of_eq (frames_ins_integer_mod (resContinue_continue h)).symm
  case IntegerToFloat =>
    simp only [execIns, hty] at h
    exact le_of_eq (frames_ins_integer_to_float (resContinue_continue h)).symm
  case IntegerToString =>
    simp only [execIns, hty] at h
    exact le_of_eq (frames_ins_integer_to_string (resContinue_continue h)).symm
  case IntegerBitwiseAnd =>
    simp only [execIns, hty] at h
    exact le_of_eq (frames_ins_integer_bitwise_and (resContinue_continue h)).symm
  case IntegerBitwiseOr =>
    simp only [execIns, hty] at h
    exact le_of_eq (frames_ins_integer_bitwise_or (resContinue_continue h)).symm
  case IntegerBitwiseXor =>
    simp only [execIns, hty] at h
    exact le_of_eq (frames_ins_integer_bitwise_xor (resContinue_continue h)).symm
  case IntegerShiftLeft =>
    simp only [execIns, hty] at h
    exact le_of_eq (frames_ins_integer_shift_left (resContinue_continue h)).symm
  case IntegerShiftRight =>
    simp only [execIns, hty] at h
    exact le_of_eq (frames_ins_integer_shift_right (resContinue_continue h)).symm
  case IntegerSmaller =>
    simp only [execIns, hty] at h
    exact le_of_eq (frames_ins_integer_smaller (resContinue_continue h)).symm
  case IntegerGreater =>
    simp only [execIns, hty] at h
    exact le_of_eq (frames_ins_integer_greater (resContinue_continue h)).symm
  case IntegerEqual =>
    simp only [execIns, hty] at h
    exact le_of_eq (frames_ins_integer_equal (resContinue_continue h)).symm
  case StartThread =>
    simp only [execIns, hty] at h
    exact le_of_eq (frames_ins_start_thread (resContinue_continue h)).symm
  case Return =>
    simp only [execIns, hty] at h
    split at h <;> exact StepKind.noConfusion h
  case GotoIfFalse =>
    simp only [execIns, hty] at h
    split at h <;> exact StepKind.noConfusion h
  case GotoIfTrue =>
    simp only [execIns, hty] at h
    split at h <;> exact StepKind.noConfusion h
  case Goto =>
    simp only [execIns, hty] at h
    split at h <;> exact StepKind.noConfusion h
  case Send =>
    simp only [execIns, hty] at h
    split at h
    · exact invoke_continue_le h hn
    · exact StepKind.noConfusion h
    · exact StepKind.noConfusion h
  case RunCode =>
    simp only [execIns, hty] at h
    split at h
    · exact invoke_continue_le h hn
    · exact StepKind.noConfusion h
    · exact StepKind.noConfusion h

/-- A `halt` step's final state never has fewer frames than the state the
instruction started from. -/
theorem execIns_halt_le
    {nested : VMState → CompiledCode → VMState × Outcome}
    {st : VMState} {code : CompiledCode} {ins : Instruction}
    {out : VMState × Outcome}
    (hn : ∀ (s : VMState) (c : CompiledCode),
      s.thread.frames.length ≤ (nested s c).1.thread.frames.length)
    (h : execIns nested st code ins = .halt out) :
    st.thread.frames.length ≤ out.1.thread.frames.length := by
  cases hty : ins.itype
  case SetInteger =>
    simp only [execIns, hty] at h
    exact le_of_eq (congrArg (fun s : VMState => s.thread.frames.length)
      (resContinue_halt h)).symm
  case SetFloat =>
    simp only [execIns, hty] at h
    exact le_of_eq (congrArg (fun s : VMState => s.thread.frames.length)
      (resContinue_halt h)).symm
  case SetString =>
    simp only [execIns, hty] at h
    exact le_of_eq (congrArg (fun s : VMState => s.thread.frames.length)
      (resContinue_halt h)).symm
  case SetObject =>
    simp only [execIns, hty] at h
    exact le_of_eq (congrArg (fun s : VMState => s.thread.frames.length)
      (resContinue_halt h)).symm
  case SetArray =>
    simp only [execIns, hty] at h
    exact le_of_eq (congrArg (fun s : VMState => s.thread.frames.length)
      (resContinue_halt h)).symm
  case SetName =>
    simp only [execIns, hty] at h
    exact le_of_eq (congrArg (fun s : VMState => s.thread.frames.length)
      (resContinue_halt h)).symm
  case SetIntegerPrototype =>
    simp only [execIns, hty] at h
    exact le_of_eq (congrArg (fun s : VMState => s.thread.frames.length)
      (resContinue_halt h)).symm
  case SetFloatPrototype =>
    simp only [execIns, hty] at h
    exact le_of_eq (congrArg (fun s : VMState => s.thread.frames.length)
      (resContinue_halt h)).symm
  case SetStringPrototype =>
    simp only [execIns, hty] at h
    exact le_of_eq (congrArg (fun s : VMState => s.thread.frames.length)
      (resContinue_halt h)).symm
  case SetArrayPrototype =>
    simp only [execIns, hty] at h
    exact le_of_eq (congrArg (fun s : VMState => s.thread.frames.length)
      (resContinue_halt h)).symm
  case SetThreadPrototype =>
    simp only [execIns, hty] at h
    exact le_of_eq (congrArg (fun s : VMState => s.thread.frames.length)
      (resContinue_halt h)).symm
  case SetTruePrototype =>
    simp only [execIns, hty] at h
    exact le_of_eq (congrArg (fun s : VMState => s.thread.frames.length)
      (resContinue_halt h)).symm
  case SetFalsePrototype =>
    simp only [execIns, hty] at h
    exact le_of_eq (congrArg (fun s : VMState => s.thread.frames.length)
      (resContinue_halt h)).symm
  case SetTrue =>
    simp only [execIns, hty] at h
    exact le_of_eq (congrArg (fun s : VMState => s.thread.frames.length)
      (resContinue_halt h)).symm
  case SetFalse =>
    simp only [execIns, hty] at h
    exact le_of_eq (congrArg (fun s : VMState => s.thread.frames.length)
      (resContinue_halt h)).symm
  case SetLocal =>
    simp only [execIns, hty] at h
    exact le_of_eq (congrArg (fun s : VMState => s.thread.frames.length)
      (resContinue_halt h)).symm
  case GetLocal =>
    simp only [execIns, hty] at h
    exact le_of_eq (congrArg (fun s : VMState => s.thread.frames.length)
      (resContinue_halt h)).symm
  case SetConst =>
    simp only [execIns, hty] at h
    exact le_of_eq (congrArg (fun s : VMState => s.thread.frames.length)
      (resContinue_halt h)).symm
  case GetConst =>
    simp only [execIns, hty] at h
    exact le_of_eq (congrArg (fun s : VMState => s.thread.frames.length)
      (resContinue_halt h)).symm
  case SetAttr =>
    simp only [execIns, hty] at h
    exact le_of_eq (congrArg (fun s : VMState => s.thread.frames.length)
      (resContinue_halt h)).symm
  case GetAttr =>
    simp only [execIns, hty] at h
    exact le_of_eq (congrArg (fun s : VMState => s.thread.frames.length)
      (resContinue_halt h)).symm
  case DefMethod =>
    simp only [execIns, hty] at h
    exact le_of_eq (congrArg (fun s : VMState => s.thread.frames.length)
      (resContinue_halt h)).symm
  case GetToplevel =>
    simp only [execIns, hty] at h
    exact le_of_eq (congrArg (fun s : VMState => s.thread.frames.length)
      (resContinue_halt h)).symm
  case IntegerAdd =>
    simp only [execIns, hty] at h
    exact le_of_eq (congrArg (fun s : VMState => s.thread.frames.length)
      (resContinue_halt h)).symm
  case IntegerDiv =>
    simp only [execIns, hty] at h
    exact le_of_eq (congrArg (fun s : VMState => s.thread.frames.length)
      (resContinue_halt h)).symm
  case IntegerMul =>
    simp only [execIns, hty] at h
    exact le_of_eq (congrArg (fun s : VMState => s.thread.frames.length)
      (resContinue_halt h)).symm
  case IntegerSub =>
    simp only [execIns, hty] at h
    exact le_of_eq (congrArg (fun s : VMState => s.thread.frames.length)
      (resContinue_halt h)).symm
  case IntegerMod =>
    simp only [execIns, hty] at h
    exact le_of_eq (congrArg (fun s : VMState => s.thread.frames.length)
      (resContinue_halt h)).symm
  case IntegerToFloat =>
    simp only [execIns, hty] at h
    exact le_of_eq (congrArg (fun s : VMState => s.thread.frames.length)
      (resContinue_halt h)).symm
  case IntegerToString =>
    simp only [execIns, hty] at h
    exact le_of_eq (congrArg (fun s : VMState => s.thread.frames.length)
      (resContinue_halt h)).symm
  case IntegerBitwiseAnd =>
    simp only [execIns, hty] at h
    exact le_of_eq (congrArg (fun s : VMState => s.thread.frames.length)
      (resContinue_halt h)).symm
  case IntegerBitwiseOr =>
    simp only [execIns, hty] at h
    exact le_of_eq (congrArg (fun s : VMState => s.thread.frames.length)
      (resContinue_halt h)).symm
  case IntegerBitwiseXor =>
    simp only [execIns, hty] at h
    exact le_of_eq (congrArg (fun s : VMState => s.thread.frames.length)
      (resContinue_halt h)).symm
  case IntegerShiftLeft =>
    simp only [execIns, hty] at h
    exact le_of_eq (congrArg (fun s : VMState => s.thread.frames.length)
      (resContinue_halt h)).symm
  case IntegerShiftRight =>
    simp only [execIns, hty] at h
    exact le_of_eq (congrArg (fun s : VMState => s.thread.frames.length)
      (resContinue_halt h)).symm
  case IntegerSmaller =>
    simp only [execIns, hty] at h
    exact le_of_eq (congrArg (fun s : VMState => s.thread.frames.length)
      (resContinue_halt h)).symm
  case IntegerGreater =>
    simp only [execIns, hty] at h
    exact le_of_eq (congrArg (fun s : VMState => s.thread.frames.length)
      (resContinue_halt h)).symm
  case IntegerEqual =>
    simp only [execIns, hty] at h
    exact le_of_eq (congrArg (fun s : VMState => s.thread.frames.length)
      (resContinue_halt h)).symm
  case StartThread =>
    simp only [execIns, hty] at h
    exact le_of_eq (congrArg (fun s : VMState => s.thread.frames.length)
      (resContinue_halt h)).symm
  case Return =>
    simp only [execIns, hty] at h
    split at h
    · exact StepKind.noConfusion h
    · cases h; exact Nat.le_refl _
    · cases h; exact Nat.le_refl _
  case GotoIfFalse =>
    simp only [execIns, hty] at h
    split at h
    · exact StepKind.noConfusion h
    · cases h; exact Nat.le_refl _
    · cases h; exact Nat.le_refl _
  case GotoIfTrue =>
    simp only [execIns, hty] at h
    split at h
    · exact StepKind.noConfusion h
    · cases h; exact Nat.le_refl _
    · cases h; exact Nat.le_refl _
  case Goto =>
    simp only [execIns, hty] at h
    split at h
    · exact StepKind.noConfusion h
    · cases h; exact Nat.le_refl _
    · cases h; exact Nat.le_refl _
  case Send =>
    simp only [execIns, hty] at h
    split at h
    · exact invoke_halt_le h hn
    · cases h; exact Nat.le_refl _
    · cases h; exact Nat.le_refl _
  case RunCode =>
    simp only [execIns, hty] at h
    split at h
    · exact invoke_halt_le h hn
    · cases h; exact Nat.le_refl _
    · cases h; exact Nat.le_refl _

/-- The call-frame stack never gets shorter across a loop run: handlers
preserve its depth, and each `Send`/`RunCode` pop is paired with its own
push. -/
theorem runLoop_frames_le (fuel : Nat) :
    ∀ (st : VMState) (code : CompiledCode) (index : Nat) (sk : Option Nat)
      (rv : Option ObjectId),
      st.thread.frames.length
        ≤ (runLoop fuel st code index sk rv).1.thread.frames.length := by
  induction fuel with
  | zero => intro st code index sk rv; exact Nat.le_refl _
  | succ fuel ih =>
    intro st code index sk rv
    have hn : ∀ (s : VMState) (c : CompiledCode),
        s.thread.frames.length
          ≤ ((if s.thread.stop then (s, Outcome.ok none)
              else runLoop fuel s c 0 none none)).1.thread.frames.length := by
      intro s c
      split
      · exact Nat.le_refl _
      · exact ih _ _ _ _ _
    rw [runLoop]
    split
    · exact Nat.le_refl _
    · split
      · exact ih _ _ _ _ _
      · split
        · exact le_trans (execIns_continue_le hn (by assumption)) (ih _ _ _ _ _)
        · exact ih _ _ _ _ _
        · exact ih _ _ _ _ _
        · exact ih _ _ _ _ _
        · exact execIns_halt_le hn (by assumption)

/-- Running `run` never shrinks the frame stack either. -/
theorem run_frames_le (fuel : Nat) (st : VMState) (code : CompiledCode) :
    st.thread.frames.length ≤ (run fuel st code).1.thread.frames.length := by
  unfold run
  split
  · exact Nat.le_refl _
  · exact runLoop_frames_le fuel st code 0 none none

/-- C10: for every nested invocation via `run_code`, the CallFrame pushed
for the invocation is popped only when the nested interpreter run completes
without error; when the nested run returns an error, the frame remains on
the thread's call-frame chain while the error propagates (the final state
is exactly the nested run's final state, whose chain is at least one frame
deeper than the caller's). -/
theorem c10_run_code_pops_only_on_success (fuel : Nat) (st : VMState)
    (m : CompiledCode) (args : List ObjectId) :
    (∀ (st1 : VMState) (msg : String),
      run fuel (pushFrameLocals st m args) m = (st1, .err msg) →
        run_code fuel st m args = (st1, .err msg) ∧
        st.thread.frames.length + 1 ≤ st1.thread.frames.length) ∧
    (∀ (st1 : VMState) (v : Option ObjectId),
      run fuel (pushFrameLocals st m args) m = (st1, .ok v) →
        run_code fuel st m args = (popFrameS st1, .ok v)) := by
  constructor
  · intro st1 msg hrun
    constructor
    · unfold run_code
      rw [hrun]
    · have h1 := run_frames_le fuel (pushFrameLocals st m args) m
      rw [hrun, frames_pushFrameLocals] at h1
      exact h1
  · intro st1 v hrun
    unfold run_code
    rw [hrun]

/-- Witness for C10 at a concrete input: a nested code whose first
instruction fails to decode leaves its own frame on the chain. -/
theorem c10_witness :
    run_code 5 initState failingCode []
        = (pushFrameLocals initState failingCode [], .err "missing target slot")
      ∧ initState.thread.frames.length + 1
        ≤ (pushFrameLocals initState failingCode []).thread.frames.length := by
  have h := (c10_run_code_pops_only_on_success 5 initState failingCode []).1
    (pushFrameLocals initState failingCode []) "missing target slot" rfl
  exact h

/-- C4 (amended): the stop flag is consulted once, at the entry of each
interpreter run (`run` returns `Ok(None)` without executing any
instruction when the flag is already set), including the entry of every
nested run made by `Send`/`RunCode`; the dispatch loop itself never
re-checks the flag between instructions. -/
theorem c4_stop_checked_at_run_entry (fuel : Nat) (st : VMState)
    (code : CompiledCode) (h : st.thread.stop = true) :
    run fuel st code = (st, .ok none) := by
  unfold run
  rw [if_pos h]

/-- Witness for C4 (amended) at a concrete input. -/
theorem c4_stop_checked_at_run_entry_witness :
    run 5 stopState c4Code = (stopState, .ok none) :=
  c4_stop_checked_at_run_entry 5 stopState c4Code rfl

/-- Counterexample to C4 as stated: the stop flag is NOT consulted at the
top of every iteration of the dispatch loop.  A loop configuration whose
thread has the stop flag set still executes its instruction (here a
`SetObject` that visibly writes register 0); only the single check at
`run`'s entry exists. -/
theorem c4_counterexample :
    stopState.thread.stop = true ∧
    (runLoop 5 stopState c4Code 0 none none).1.thread.get_register 0
      = some 1 := by
  exact ⟨rfl, by decide⟩

/-- Once `skip_until` is set to a target strictly ahead of the current
index (and the index is still inside the code), the loop re-examines the
same index forever: the source's skip branch executes `continue` without
incrementing `index`. -/
theorem runLoop_skip_forward_diverges (code : CompiledCode) (idx t : Nat)
    (hlt : idx < t) (hlen : idx < code.instructions.length) :
    ∀ (f : Nat) (st : VMState) (rv : Option ObjectId),
      runLoop f st code idx (some t) rv = (st, .timeout) := by
  intro f
  induction f with
  | zero => intro st rv; rfl
  | succ f ih =>
    intro st rv
    rw [runLoop]
    cases hg : code.instructions.get? idx with
    | none =>
      exact absurd (List.get?_eq_none.mp hg) (by omega)
    | some ins =>
      have hd : decide (idx < t) = true := decide_eq_true hlt
      simp only [Option.any_some, hd, if_true]
      exact ih st rv

/-- C3: executing a `GotoIfFalse` whose tested register holds a
false/absent value (or a `GotoIfTrue` whose register holds a truthy value)
with a target more than one instruction ahead does NOT continue at the
target: the handler merely records the target in `skip_until`, and the
loop's skip branch then executes `continue` without advancing the
instruction pointer, so the run never terminates — for every fuel bound
the outcome is still `timeout`.  (With any other tested value, and for
targets at most one ahead, execution continues at the following
instruction, never at the target.) -/
theorem c3_conditional_forward_jump_diverges (fuel : Nat) (st : VMState)
    (code : CompiledCode) (index : Nat) (rv : Option ObjectId)
    (ins : Instruction) (t : Nat)
    (hins : code.instructions.get? index = some ins)
    (hlen : index + 1 < code.instructions.length)
    (hlt : index + 1 < t)
    (hskip : (ins.itype = .GotoIfFalse
        ∧ ins_goto_if_false st code ins = .ok (some t))
      ∨ (ins.itype = .GotoIfTrue
        ∧ ins_goto_if_true st code ins = .ok (some t))) :
    runLoop (fuel + 1) st code index none rv = (st, .timeout) := by
  have hdiv := runLoop_skip_forward_diverges code (index + 1) t hlt hlen fuel st rv
  rw [runLoop]
  rcases hskip with ⟨hty, hok⟩ | ⟨hty, hok⟩ <;>
    simp only [hins, Option.any_none, Bool.false_eq_true, if_false, execIns,
      hty, hok, hdiv]

/-- Witness for C3 at a concrete input: the `GotoIfFalse 2 0` of `c3Code`
(register 0 absent, target two instructions ahead) diverges. -/
theorem c3_conditional_forward_jump_diverges_witness :
    runLoop 8 initState c3Code 0 none none = (initState, .timeout) :=
  c3_conditional_forward_jump_diverges 7 initState c3Code 0 none
    { itype := .GotoIfFalse, arguments := [2, 0], line := 1, column := 1 } 2
    (by decide) (by decide) (by decide) (Or.inl ⟨rfl, rfl⟩)

/-- Counterexample to C1 as stated: in `c1Code` the instruction at index 3
is `Return 1` with register 1 holding integer 10, yet the run's final
register file shows the LATER `SetInteger 2 1` executed (register 2 holds
integer 20) and the run yields object 3 (integer 20), the value of the
LAST `Return`, not the value read at the first `Return`'s slot. -/
theorem c1_counterexample :
    c1Code.instructions.get? 3
        = some { itype := .Return, arguments := [1], line := 1, column := 1 }
      ∧ (run 20 initState c1Code).1.regValue? 1 = some (.integer 10)
      ∧ (run 20 initState c1Code).1.regValue? 2 = some (.integer 20)
      ∧ (run 20 initState c1Code).2 = .ok (some 3)
      ∧ ((run 20 initState c1Code).1.objAt 3).value = .integer 20 := by
  decide

/-- C1 (amended): `Return(slot)` does not end the frame's run; it stores
the optional value read from the slot as the run's pending return value
and the loop continues with the following instruction.  The run ends only
when the instruction pointer leaves the code, yielding the value of the
last executed `Return`. -/
theorem c1_return_sets_retval_and_continues (fuel : Nat) (st : VMState)
    (code : CompiledCode) (index : Nat) (retval : Option ObjectId)
    (ins : Instruction) (slot : Nat)
    (hins : code.instructions.get? index = some ins)
    (hty : ins.itype = .Return)
    (harg : ins.arguments.get? 0 = some slot) :
    runLoop (fuel + 1) st code index none retval
      = runLoop fuel st code (index + 1) none (st.thread.get_register slot) := by
  rw [runLoop]
  simp only [hins, Option.any_none, Bool.false_eq_true, if_false, execIns, hty,
    ins_return, argGet_def, harg, Res.ofOption_some, Res.monadBind_def,
    Res.bind_ok, Res.pure_def]

/-- Witness for C1 (amended) at a concrete input: the `Return 1` of
`c1Code` at index 3, executed from the empty initial register file. -/
theorem c1_return_sets_retval_and_continues_witness :
    runLoop 6 initState c1Code 3 none none
      = runLoop 5 initState c1Code 4 none
          (initState.thread.get_register 1) :=
  c1_return_sets_retval_and_continues 5 initState c1Code 3 none
    { itype := .Return, arguments := [1], line := 1, column := 1 } 1
    (by decide) rfl rfl

/-- C2: with integer-tagged operands and a zero right-hand operand,
`ins_integer_div` and `ins_integer_mod` do NOT return an arithmetic error
result: the source performs a raw Rust `i64` division/remainder, which
panics.  The outcome is a crash of the executing OS thread, not an
`Err(String)` routed through the thread-error path. -/
theorem c2_div_mod_by_zero_is_crash (st : VMState) (code : CompiledCode)
    (insD insM : Instruction) (a b c : Nat) (idL idR p : ObjectId) (lv : Int)
    (hargsD : insD.arguments = [a, b, c]) (hargsM : insM.arguments = [a, b, c])
    (hbL : st.thread.get_register b = some idL)
    (hcR : st.thread.get_register c = some idR)
    (hvL : (st.objAt idL).value = .integer lv)
    (hvR : (st.objAt idR).value = .integer 0)
    (hproto : st.mem.integer_prototype = some p) :
    ins_integer_div st code insD = .crash "attempt to divide by zero"
      ∧ ins_integer_mod st code insM
        = .crash "attempt to calculate the remainder with a divisor of zero" := by
  constructor
  · unfold ins_integer_div
    simp [hargsD, hbL, hcR, hvL, hvR, hproto, ObjValue.is_integer,
      ObjValue.as_integer]
  · unfold ins_integer_mod
    simp [hargsM, hbL, hcR, hvL, hvR, hproto, ObjValue.is_integer,
      ObjValue.as_integer]

/-- Witness for C2 at a concrete input: dividing 1 by 0 in `divState`. -/
theorem c2_div_mod_by_zero_is_crash_witness :
    ins_integer_div divState (mkCode [] [])
        { itype := .IntegerDiv, arguments := [0, 1, 2] }
      = .crash "attempt to divide by zero"
      ∧ ins_integer_mod divState (mkCode [] [])
          { itype := .IntegerMod, arguments := [0, 1, 2] }
        = .crash "attempt to calculate the remainder with a divisor of zero" :=
  c2_div_mod_by_zero_is_crash divState (mkCode [] [])
    { itype := .IntegerDiv, arguments := [0, 1, 2] }
    { itype := .IntegerMod, arguments := [0, 1, 2] }
    0 1 2 2 3 1 1 rfl rfl rfl rfl rfl rfl rfl

/-- C5: an instruction with fewer arguments than its declared variadic
count does NOT produce a decode error: `collect_arguments` indexes
`instruction.arguments` directly, so the missing argument is an
out-of-bounds `Vec` index — a Rust panic that crashes the thread (shown
here for `SetArray`, whose handler is the first consumer of
`collect_arguments`). -/
theorem c5_missing_variadic_argument_is_crash (st : VMState)
    (code : CompiledCode) (ins : Instruction) (slot cnt : Nat)
    (hargs : ins.arguments = [slot, cnt]) (hcnt : 0 < cnt) :
    ins_set_array st code ins = .crash "index out of bounds" := by
  obtain ⟨k, rfl⟩ : ∃ k, cnt = k + 1 := ⟨cnt - 1, by omega⟩
  unfold ins_set_array
  simp [hargs, collect_arguments, collectArgumentsAux]

/-- Witness for C5 at a concrete input: `SetArray 0 1` with no argument
slots. -/
theorem c5_missing_variadic_argument_is_crash_witness :
    ins_set_array initState (mkCode [] [])
        { itype := .SetArray, arguments := [0, 1] }
      = .crash "index out of bounds" :=
  c5_missing_variadic_argument_is_crash initState (mkCode [] [])
    { itype := .SetArray, arguments := [0, 1] } 0 1 rfl (by decide)

/-- C6: the arity check of `ins_send`.  Once the method is resolved and the
supplied arguments collected, entering the method (an `ok` decode that
proceeds to `run_code` with the receiver prepended) happens exactly when
the supplied count equals `required_arguments`; any other count fails the
thread with a dispatch error naming the expected and given counts. -/
theorem c6_send_arity_exact (st : VMState) (code : CompiledCode)
    (ins : Instruction) (result_slot receiver_slot name_index allow_private
      arg_count : Nat) (nm : String) (receiver : ObjectId)
    (method_code : CompiledCode) (args : List ObjectId)
    (hargs0 : ins.arguments.get? 0 = some result_slot)
    (hargs1 : ins.arguments.get? 1 = some receiver_slot)
    (hargs2 : ins.arguments.get? 2 = some name_index)
    (hargs3 : ins.arguments.get? 3 = some allow_private)
    (hargs4 : ins.arguments.get? 4 = some arg_count)
    (hnm : code.string_literals.get? name_index = some nm)
    (hrecv : st.thread.get_register receiver_slot = some receiver)
    (hmeth : lookup_method st receiver nm = some method_code)
    (hpriv : ¬(method_code.is_private = true ∧ allow_private = 0))
    (hcoll : collect_arguments st ins 5 arg_count = .ok args) :
    (args.length = method_code.required_arguments →
      sendDecode st code ins = .ok (result_slot, method_code, receiver :: args))
    ∧ (args.length ≠ method_code.required_arguments →
      sendDecode st code ins
        = .err ("\"" ++ nm ++ "\" requires "
            ++ toString method_code.required_arguments ++ " arguments, "
            ++ toString args.length ++ " given")) := by
  unfold sendDecode
  simp only [argGet_def, hargs0, hargs1, hargs2, hargs3, hargs4, hnm, hrecv,
    hmeth, Res.ofOption_some, Res.monadBind_def, Res.bind_ok, Res.pure_def,
    hcoll, if_neg hpriv]
  constructor
  · intro h
    rw [if_neg (not_not_intro h)]
  · intro h
    rw [if_pos h]

/-- Witness for C6 at a concrete input: sending `"inc"` (one required
argument) with zero supplied arguments yields the dispatch error naming
both counts. -/
theorem c6_send_arity_exact_witness :
    sendDecode sendState sendCode sendIns
      = .err "\"inc\" requires 1 arguments, 0 given" := by
  have h := (c6_send_arity_exact sendState sendCode sendIns 0 1 0 1 0 "inc" 1
    methodCode [] rfl rfl rfl rfl rfl rfl rfl rfl (by decide) rfl).2 (by decide)
  exact h

/-- C7: for every well-known prototype: installing it when unset succeeds
and stores the given object in the slot; executing the same
`Set*Prototype` a second time fails with "prototype already defined"; and
every instruction depending on that prototype (or on the True/False
singleton it creates) fails before it is installed. -/
theorem c7_prototypes_write_once : ∀ k : ProtoKind,
    ((protoHandler k protoState protoCode (protoInsFor k)).errMsg? = none
      ∧ getProtoSlot
          ((protoHandler k protoState protoCode (protoInsFor k)).stateD
            protoState) k = some 1)
    ∧ (protoHandler k
        ((protoHandler k protoState protoCode (protoInsFor k)).stateD
          protoState)
        protoCode (protoInsFor k)).errMsg? = some "prototype already defined"
    ∧ (dependentsOf k).all
        (fun d => (d.1 protoState protoCode d.2).errMsg?
          == some (noProtoMsg k)) = true := by
  intro k
  cases k <;> exact ⟨⟨rfl, rfl⟩, rfl, rfl⟩

theorem regValue_allocReg (st : VMState) (slot : Nat) (v : ObjValue)
    (p : ObjectId) : (allocReg st slot v p).regValue? slot = some v := by
  simp only [allocReg, VMState.regValue?, VMState.setReg,
    ThreadState.set_register, ThreadState.get_register, MMState.allocate,
    VMState.objAt, List.find?]
  simp [List.getElem?_concat_length]

/-- C8: `IntegerToString` on an integer-tagged object holding `v` writes a
string-tagged object whose text is Rust's decimal rendering of `v`, and
parsing that text back as an integer literal yields `v` again. -/
theorem c8_integer_to_string_roundtrip (st : VMState) (code : CompiledCode)
    (ins : Instruction) (slot src : Nat) (id p : ObjectId) (v : Int)
    (h0 : ins.arguments.get? 0 = some slot)
    (h1 : ins.arguments.get? 1 = some src)
    (hreg : st.thread.get_register src = some id)
    (hval : (st.objAt id).value = .integer v)
    (hproto : st.mem.string_prototype = some p) :
    ins_integer_to_string st code ins
        = .ok (allocReg st slot (.string (intToDecString v)) p)
      ∧ (allocReg st slot (.string (intToDecString v)) p).regValue? slot
        = some (.string (intToDecString v))
      ∧ parseIntLit (intToDecString v) = some v := by
  refine ⟨?_, regValue_allocReg st slot _ p, parseIntLit_intToDecString v⟩
  unfold ins_integer_to_string
  rw [List.get?_eq_getElem?] at h0 h1
  simp [h0, h1, hreg, hproto, hval, ObjValue.is_integer, ObjValue.as_integer]

/-- Witness for C8 at a concrete input: converting -42. -/
theorem c8_integer_to_string_roundtrip_witness :
    ins_integer_to_string strState (mkCode [] [])
        { itype := .IntegerToString, arguments := [3, 2] }
      = .ok (allocReg strState 3 (.string (intToDecString (-42))) 1)
    ∧ (allocReg strState 3 (.string (intToDecString (-42))) 1).regValue? 3
      = some (.string (intToDecString (-42)))
    ∧ parseIntLit (intToDecString (-42)) = some (-42) :=
  c8_integer_to_string_roundtrip strState (mkCode [] [])
    { itype := .IntegerToString, arguments := [3, 2] } 3 2 2 1 (-42)
    rfl rfl rfl rfl rfl

/-- Counterexample to C9 as stated: before the `RunCode` of `c9Code`,
register 1 (the instruction's result slot) holds integer 10; the nested
code completes successfully with no return value, yet register 1 ends up
holding integer 20 — the nested code itself overwrote it (registers are
shared across frames), so the slot's previous content is not preserved. -/
theorem c9_counterexample :
    (run 20 initState c9Prefix).1.regValue? 1 = some (.integer 10)
      ∧ (run 20 initState c9Code).2 = .ok none
      ∧ (run 20 initState c9Code).1.regValue? 1 = some (.integer 20) := by
  decide

/-- C9 (amended): when the nested run of a `Send` or `RunCode` completes
successfully without producing a return value, the handler itself writes
nothing: the loop continues from exactly the nested run's final state with
only the call frame popped (registers untouched by the pop).  The result
slot's previous content is therefore preserved exactly when the invoked
code did not itself write that register. -/
theorem c9_invoke_no_result_write (fuel : Nat) (st : VMState)
    (code : CompiledCode) (index : Nat) (retval : Option ObjectId)
    (ins : Instruction) (rslot : Nat) (m : CompiledCode)
    (args : List ObjectId) (st1 : VMState)
    (hins : code.instructions.get? index = some ins)
    (hrun : run fuel (pushFrameLocals st m args) m = (st1, .ok none)) :
    (ins.itype = .Send → sendDecode st code ins = .ok (rslot, m, args) →
      runLoop (fuel + 1) st code index none retval
        = runLoop fuel (popFrameS st1) code (index + 1) none retval)
    ∧ (ins.itype = .RunCode →
        runCodeDecode st code ins = .ok (rslot, m, args) →
      runLoop (fuel + 1) st code index none retval
        = runLoop fuel (popFrameS st1) code (index + 1) none retval)
    ∧ (popFrameS st1).thread.registers = st1.thread.registers := by
  have hrun' :
      (if (pushFrameLocals st m args).thread.stop
       then (pushFrameLocals st m args, Outcome.ok none)
       else runLoop fuel (pushFrameLocals st m args) m 0 none none)
        = (st1, Outcome.ok none) := hrun
  refine ⟨?_, ?_, rfl⟩
  · intro hty hdec
    rw [runLoop]
    simp only [hins, Option.any_none, Bool.false_eq_true, if_false, execIns,
      hty, hdec, hrun', invokeContinue]
  · intro hty hdec
    rw [runLoop]
    simp only [hins, Option.any_none, Bool.false_eq_true, if_false, execIns,
      hty, hdec, hrun', invokeContinue]

/-- Witness for C9 (amended) at a concrete input. -/
theorem c9_invoke_no_result_write_witness :
    (runLoop 4 initState c9SimpleCode 0 none none
      = runLoop 3 (popFrameS (pushFrameLocals initState (mkCode [] []) []))
          c9SimpleCode 1 none none)
    ∧ (popFrameS (pushFrameLocals initState (mkCode [] []) [])).thread.registers
      = (pushFrameLocals initState (mkCode [] []) []).thread.registers := by
  have h := c9_invoke_no_result_write 3 initState c9SimpleCode 0 none
    { itype := .RunCode, arguments := [0, 0, 0], line := 1, column := 1 }
    0 (mkCode [] []) [] (pushFrameLocals initState (mkCode [] []) [])
    (by decide) rfl
  exact ⟨h.2.1 rfl rfl, h.2.2⟩

end InkoVM
